import Mathlib

/-!
A verification development for the Brookstone WhatsApp bot
(`src/whatsapp_bot.py`): a shallow embedding in Lean 4 of the bot's
conversation state machine, intent router, budget extractor, knowledge
relevance filter, generative-answer retry wrapper, webhook loop and
booking-ledger poller, together with theorems about the claims of the
specification.

Modelling conventions, used throughout:
  * Python strings are Lean `String`s; membership tests (`kw in text`)
    are substring checks (`pyIn`); `str.lower()` is modelled as ASCII
    lowercasing (the source's keyword data is caseless outside A-Z).
  * Fallible Python code is modelled in `Except PyErr`; an uncaught
    exception surfaces as `.error`.  Mutation of the process-wide state is
    modelled by explicit state passing; a function that can raise after
    mutating returns the state it had mutated so far.
  * External collaborators (WhatsApp transport, Gemini backend, Google
    Sheets) are oracles supplied through environment records; the calls
    made to them are recorded as an `Effect` trace.
  * The source file is taken verbatim, including its mojibake literals
    (the file stores its Gujarati/emoji text double-encoded; the exact
    characters of the source are reproduced here).
-/

namespace WhatsappBot

/-! ## Python string primitives -/

/-- Python whitespace for `\s`, `str.strip()` and `str.split()` (ASCII part). -/
def isPySpace (c : Char) : Bool :=
  c = ' ' || c = '\t' || c = '\n' || c = '\r' || c = '\x0b' || c = '\x0c'

/-- ASCII decimal digit, the `\d` class of the source's patterns. -/
def isDigitCh (c : Char) : Bool :=
  '0' ≤ c && c ≤ '9'

/-- Word character for `\b`: modelled as ASCII `[A-Za-z0-9_]` (exact for the
ASCII inputs the phone patterns are used on). -/
def isWordCh (c : Char) : Bool :=
  isDigitCh c || ('a' ≤ c && c ≤ 'z') || ('A' ≤ c && c ≤ 'Z') || c = '_'

/-- Does `hay` start with `need`? -/
def listStartsWith : List Char → List Char → Bool
  | _, [] => true
  | [], _ :: _ => false
  | a :: as, b :: bs => a == b && listStartsWith as bs

/-- Does `hay` contain `need` as a contiguous sublist? -/
def listHasSub (hay need : List Char) : Bool :=
  match hay with
  | [] => need.isEmpty
  | _ :: t => listStartsWith hay need || listHasSub t need

/-- Python's `need in hay` on strings: substring containment. -/
def pyIn (need hay : String) : Bool :=
  listHasSub hay.data need.data

/-- Python `str.lower()`, modelled on the ASCII range. -/
def asciiLower (s : String) : String :=
  String.mk (s.data.map fun c =>
    if 'A' ≤ c && c ≤ 'Z' then Char.ofNat (c.toNat + 32) else c)

/-- Python `str.strip()` (whitespace from both ends). -/
def pyStrip (s : String) : String :=
  String.mk (((s.data.dropWhile isPySpace).reverse.dropWhile isPySpace).reverse)

/-- Python `str.replace(old, new)` for one-character `old` and empty `new`,
the only shape the source uses (`.replace(' ', '').replace('-', '')`). -/
def removeCh (c : Char) (s : String) : String :=
  String.mk (s.data.filter fun d => d ≠ c)

/-! ## Language detection (`detect_language`, lines 57-64)

The source compares `gujarati_chars / len(text) > 0.2` in floating point;
we compare exactly (`5 * count > length`), which agrees with the float
comparison for every realistic message length. -/

/-- `detect_language`: more than 20% of characters in U+0A80..U+0AFF means
Gujarati, else English; empty text is English. -/
def detect_language (text : String) : String :=
  let gujarati_chars :=
    (text.data.filter fun c => 0xA80 ≤ c.toNat && c.toNat ≤ 0xAFF).length
  if 0 < text.data.length && text.data.length < 5 * gujarati_chars then
    "gujarati"
  else "english"

/-! ## Budget extraction (`extract_budget_from_text`, lines 243-263)

The four patterns are
  `(\d+\.?\d*)\s*(?:cr|crore|crores)`, `(\d+\.?\d*)\s*(?:lakh|lakhs)`,
and the same two preceded by the source's (mojibake) rupee literal.
`re.search` scans start positions left to right; at a fixed position the
pattern pieces are deterministic here (a shorter `\d*` or a skipped `\.?`
always leaves a digit or a dot where the unit word must start), so the
greedy parse below is exactly Python's leftmost match. -/

/-- The leading group `\d+\.?\d*` at the head of `cs`: the captured text and
the remainder, or `none` when no digit starts here. -/
def amountHere (cs : List Char) : Option (List Char × List Char) :=
  let ds := cs.takeWhile isDigitCh
  if ds.isEmpty then none
  else
    match cs.drop ds.length with
    | '.' :: r2 =>
      let fs := r2.takeWhile isDigitCh
      some (ds ++ '.' :: fs, r2.drop fs.length)
    | rest => some (ds, rest)

/-- Search for `(\d+\.?\d*)\s*UNIT` (the alternation `cr|crore|crores`
or `lakh|lakhs` succeeds exactly when its first word occurs), returning
the captured group of the leftmost match. -/
def searchAmountUnit (unit : List Char) : List Char → Option (List Char)
  | [] => none
  | c :: rest =>
    match amountHere (c :: rest) with
    | some (g, after) =>
      if listStartsWith (after.dropWhile isPySpace) unit then some g
      else searchAmountUnit unit rest
    | none => searchAmountUnit unit rest

/-- The source's rupee sign as it is stored in the file (double-encoded). -/
def rupeeLit : List Char := "â‚¹".data

/-- Search for `RUPEE\s*(\d+\.?\d*)\s*UNIT`, returning the captured group. -/
def searchRupeeAmountUnit (unit : List Char) : List Char → Option (List Char)
  | [] => none
  | c :: rest =>
    (if listStartsWith (c :: rest) rupeeLit then
      match amountHere (((c :: rest).drop rupeeLit.length).dropWhile isPySpace) with
      | some (g, after) =>
        if listStartsWith (after.dropWhile isPySpace) unit then some g else none
      | none => none
    else none).orElse fun _ => searchRupeeAmountUnit unit rest

/-- Does `s` have the shape `\d+` or `\d+.\d*` (a decimal literal Python's
`float()` always accepts)?  This is the shape of every captured group. -/
def isFloatLit (s : String) : Bool :=
  let ds := s.data.takeWhile isDigitCh
  if ds.isEmpty then false
  else
    match s.data.drop ds.length with
    | [] => true
    | '.' :: r => r.all isDigitCh
    | _ => false

/-- Leading zeros of an integer-part digit string removed, one digit kept. -/
def stripLeadZeros : List Char → List Char
  | [] => []
  | [c] => [c]
  | c :: rest => if c = '0' then stripLeadZeros rest else c :: rest

/-- CPython's `str(float(s))` for a captured group `s` (digits with an
optional point): normalise to the shortest round-trip decimal.  Modelled
exactly for at most 15 significant digits and magnitude below 1e16 — every
input of the spec's scenarios; beyond that CPython switches to scientific
notation, which no claim depends on. -/
def pyFloatRepr (s : String) : String :=
  let cs := s.data
  let ip := cs.takeWhile fun c => c ≠ '.'
  let fp := (cs.drop (ip.length + 1)).reverse.dropWhile (fun c => c = '0') |>.reverse
  let ip := stripLeadZeros ip
  if fp.isEmpty then String.mk ip ++ ".0"
  else String.mk ip ++ "." ++ String.mk fp

/-- `extract_budget_from_text`: try the four currency patterns in order on
the lowercased text; format the first captured amount as `"... Cr"` or
`"... Lakh"` (the source picks the suffix by testing `'cr' in pattern` /
`'lakh' in pattern`, which holds for patterns 1,3 and 2,4 respectively). -/
def extract_budget_from_text (text : String) : Option String :=
  let tl := (asciiLower text).data
  match searchAmountUnit "cr".data tl with
  | some g => some (pyFloatRepr (String.mk g) ++ " Cr")
  | none =>
    match searchAmountUnit "lakh".data tl with
    | some g => some (pyFloatRepr (String.mk g) ++ " Lakh")
    | none =>
      match searchRupeeAmountUnit "cr".data tl with
      | some g => some (pyFloatRepr (String.mk g) ++ " Cr")
      | none =>
        match searchRupeeAmountUnit "lakh".data tl with
        | some g => some (pyFloatRepr (String.mk g) ++ " Lakh")
        | none => none

/-! ## Gemini invocation (`call_gemini_api`, lines 599-638)

The external backend is an oracle: each attempt either raises during the
HTTP call (`none`) or yields a response with a status code and a JSON body
whose optional pieces mirror the checks `'candidates' in result`,
`len(...) > 0`, `'content' in candidate`, `'parts' in candidate['content']`
and the indexings `parts[0]['text']` (an `IndexError`/`KeyError` there is
caught by the `except` like any transport error). -/

/-- The `content` value of a Gemini candidate: its optional `parts` list,
each part's optional `text`. -/
structure GemContent where
  parts : Option (List (Option String))
deriving Repr, DecidableEq

/-- One element of the response's `candidates` list. -/
structure GemCandidate where
  content : Option GemContent
deriving Repr, DecidableEq

/-- An HTTP response from the Gemini endpoint. -/
structure GemHttpResp where
  status : Nat
  candidates : Option (List GemCandidate)
deriving Repr, DecidableEq

/-- One attempt's outcome; `none` models `requests.post` (or `.json()`)
raising, which the `except` swallows. -/
def GemAttempt : Type := Option GemHttpResp

/-- The text one attempt extracts, `none` when the attempt falls through to
the warning (or an exception) and the loop retries: the body of the
`for attempt in range(2)` iteration. -/
def gemAttemptText (a : GemAttempt) : Option String :=
  match a with
  | none => none
  | some resp =>
    if resp.status = 200 then
      match resp.candidates with
      | some (cand :: _) =>
        match cand.content with
        | some content =>
          match content.parts with
          | some [] => none          -- parts[0] raises IndexError, caught
          | some (p :: _) => p       -- p = none models a missing text key, caught
          | none => none
        | none => none
      | _ => none
    else none

/-- A step of the wrapper's observable behaviour: the k-th attempt, or the
fixed `time.sleep(2)` executed at the top of every iteration but the first. -/
inductive GemEvent where
  | attempt (k : Nat)
  | sleepSec (n : Nat)
deriving Repr, DecidableEq

/-- The string returned when `GEMINI_API_KEY` is unset (line 602). -/
def gemNoKeyText : String := "âš\u00A0ï¸ Please configure your Gemini API key"

/-- The fixed apology returned when both attempts fail (line 638). -/
def gemFallbackText : String :=
  "Sorry, I'm having trouble answering right now. Please try again or contact our agent at +91 1234567890."

/-- `call_gemini_api`: two attempts at most, a fixed 2-second sleep before
the second only, the fixed apology when neither attempt succeeds.  The
`prompt` and `language` arguments do not influence the modelled outcome
(the oracle `attempts` decides it); they are kept for the source's
signature.  The function is total: no error propagates to the caller. -/
def call_gemini_api (hasKey : Bool) (attempts : Nat → GemAttempt)
    (prompt language : String) : String × List GemEvent :=
  let _ := prompt
  let _ := language
  if !hasKey then (gemNoKeyText, [])
  else
    match gemAttemptText (attempts 0) with
    | some t => (t, [.attempt 0])
    | none =>
      match gemAttemptText (attempts 1) with
      | some t => (t, [.attempt 0, .sleepSec 2, .attempt 1])
      | none => (gemFallbackText, [.attempt 0, .sleepSec 2, .attempt 1])

/-- How many attempts a trace records. -/
def attemptCount (evs : List GemEvent) : Nat :=
  (evs.filter fun e => match e with | .attempt _ => true | _ => false).length

/-! ## Python values and dictionaries

The knowledge base is JSON; the bot reads it with `dict.get`, `[...]`
indexing, `in` tests and `next(...)` over generators.  `PyVal` models the
values, `PyDict` an insertion-ordered dict with string keys (the only key
type the file uses), and the accessors raise exactly where CPython would
(`KeyError` on a missing `[...]` key, `TypeError`/`AttributeError` when a
non-dict is subscripted or `.get`-ed). -/

/-- A Python/JSON value. -/
inductive PyVal where
  | pstr (s : String)
  | pnone
  | plist (xs : List PyVal)
  | pdict (entries : List (String × PyVal))
deriving Repr

/-- An insertion-ordered Python dict with string keys. -/
abbrev PyDict := List (String × PyVal)

/-- Lookup of a key. -/
def dictLookup : PyDict → String → Option PyVal
  | [], _ => none
  | (k, v) :: t, key => if k = key then some v else dictLookup t key

/-- Python `key in d`. -/
def dictHas (d : PyDict) (k : String) : Bool :=
  (dictLookup d k).isSome

/-- Python `d[key] = v`: update in place when the key exists (its position
is kept), else append — CPython's insertion-order semantics. -/
def dictSet : PyDict → String → PyVal → PyDict
  | [], key, v => [(key, v)]
  | (k, w) :: t, key, v =>
    if k = key then (k, v) :: t else (k, w) :: dictSet t key v

/-- A Python exception that would propagate out of the modelled code. -/
inductive PyErr where
  | keyErr (k : String)
  | typeErr
  | attrErr
  | nameErr (n : String)
deriving Repr, DecidableEq

/-- Python `v.get(k, dflt)`: raises `AttributeError` unless `v` is a dict. -/
def PyVal.getD (v : PyVal) (k : String) (dflt : PyVal) : Except PyErr PyVal :=
  match v with
  | .pdict d => .ok ((dictLookup d k).getD dflt)
  | _ => .error .attrErr

/-- Python `v[k]`: `KeyError` on a missing key, `TypeError` on a non-dict. -/
def PyVal.idx (v : PyVal) (k : String) : Except PyErr PyVal :=
  match v with
  | .pdict d =>
    match dictLookup d k with
    | some x => .ok x
    | none => .error (.keyErr k)
  | _ => .error .typeErr

/-- Python `k in v`: key test on dicts, substring on strings, membership on
lists; `TypeError` on `None`. -/
def PyVal.hasKey (v : PyVal) (k : String) : Except PyErr Bool :=
  match v with
  | .pdict d => .ok (dictHas d k)
  | .pstr s => .ok (pyIn k s)
  | .plist xs => .ok (xs.any fun x => match x with | .pstr t => t = k | _ => false)
  | .pnone => .error .typeErr

/-! ## The knowledge base (`FAQ_DATA`, lines 30-50) -/

/-- The two language trees `load_faq_data` produces; a tree that failed to
load is the empty dict. -/
structure FaqData where
  english : PyDict
  gujarati : PyDict

/-- `faq_data.get(language, faq_data.get('english', {}))`: both keys always
exist in `FAQ_DATA`, so any language other than the two loaded ones falls
back to the English tree. -/
def faqGet (faq : FaqData) (language : String) : PyDict :=
  if language = "gujarati" then faq.gujarati else faq.english

/-! ## Knowledge relevance filter (`extract_relevant_data`, lines 267-533)

Every topic check of the source computes its assignments from the question
and the language tree alone — never from the accumulated `relevant_data` —
so each check is modelled as a function that emits the ordered list of
`relevant_data[KEY] = VALUE` assignments it performs (possibly raising),
and the checks are then applied in source order with `applyUpdates`.  Only
the final `len(relevant_data) <= 2` fallback reads the accumulated dict. -/

/-- `any(word in q for word in kws)`. -/
def anyIn (kws : List String) (q : String) : Bool :=
  kws.any fun w => pyIn w q

/-- Perform a list of `relevant_data[k] = v` assignments in order. -/
def applyUpdates (d : PyDict) (us : List (String × PyVal)) : PyDict :=
  us.foldl (fun d kv => dictSet d kv.1 kv.2) d

/-- Lines 270-275: start empty, then always include `project_info` when the
tree has it. -/
def relevantInit (ld : PyDict) : PyDict :=
  match dictLookup ld "project_info" with
  | some v => dictSet [] "project_info" v
  | none => []

/-- `ground_floor_keywords`, lines 278-282. -/
def ground_floor_keywords : List String :=
  ["ground floor", "ground level", "ground", "facility", "amenity",
   "foyer", "entrance", "gym", "library", "toddler", "children", "play",
   "lift", "elevator", "stair", "parking", "society office", "reception"]

/-- `gujarati_keywords`, lines 285-289, exactly as the (double-encoded)
source file stores them. -/
def gujarati_keywords : List String :=
  ["àª—à«àª°àª¾àª‰àª¨à«àª¡", "àª¨à«€àªšàª²à«‹ àª®àª¾àª³", "àª«à«‹àª¯àª°", "àªªà«àª°àªµà«‡àª¶", "àªœà«€àª®", "àª²àª¾àª‡àª¬à«àª°à«‡àª°à«€",
   "àª¬àª¾àª³àª•à«‹", "àª°àª®àª¤", "àª²àª¿àª«à«àªŸ", "àªàª²àª¿àªµà«‡àªŸàª°", "àª¸à«€àª¡à«€", "àªªàª¾àª°à«àª•àª¿àª‚àª—",
   "àª¸à«‹àª¸àª¾àª¯àªŸà«€ àª“àª«àª¿àª¸", "àª°àª¿àª¸à«‡àªªà«àª¶àª¨", "àª¸à«àªµàª¿àª§àª¾"]

/-- `flat_keywords`, lines 292-295. -/
def flat_keywords : List String :=
  ["3bhk", "3 bhk", "3-bhk", "three bedroom", "three bed",
   "4bhk", "4 bhk", "4-bhk", "four bedroom", "four bed"]

/-- `gujarati_flat_keywords`, lines 298-301. -/
def gujarati_flat_keywords : List String :=
  ["àª¤à«àª°àª£ àª¬à«‡àª¡àª°à«‚àª®", "à«© àª¬à«€àªàªšàª•à«‡", "àª¤à«àª°àª£ àª¬à«€àªàªšàª•à«‡",
   "àªšàª¾àª° àª¬à«‡àª¡àª°à«‚àª®", "à«ª àª¬à«€àªàªšàª•à«‡", "àªšàª¾àª° àª¬à«€àªàªšàª•à«‡"]

/-- Line 303. -/
def all_keywords : List String :=
  ground_floor_keywords ++ gujarati_keywords ++ flat_keywords ++ gujarati_flat_keywords

/-- The 3BHK sub-branch keywords of line 306. -/
def flatKw3 : List String :=
  ["3bhk", "3 bhk", "3-bhk", "three bedroom", "àª¤à«àª°àª£ àª¬à«‡àª¡àª°à«‚àª®", "à«© àª¬à«€àªàªšàª•à«‡", "àª¤à«àª°àª£ àª¬à«€àªàªšàª•à«‡"]

/-- The 4BHK sub-branch keywords of line 312. -/
def flatKw4 : List String :=
  ["4bhk", "4 bhk", "4-bhk", "four bedroom", "àªšàª¾àª° àª¬à«‡àª¡àª°à«‚àª®", "à«ª àª¬à«€àªàªšàª•à«‡", "àªšàª¾àª° àª¬à«€àªàªšàª•à«‡"]

/-- Lines 303-321: the combined-keyword check with its 3BHK/4BHK
sub-branching, the ground-floor plan copy and the elevator pull from
`construction_specifications`. -/
def stageAllKeywordsUpdates (q : String) (ld : PyDict) :
    Except PyErr (List (String × PyVal)) := do
  if anyIn all_keywords q then
    let us1 ←
      if anyIn flatKw3 q then
        match dictLookup ld "3bhk_unit_plan" with
        | some up => do
          let priceV ← ((dictLookup ld "pricing").getD (.pdict [])).getD "box_price_2650" .pnone
          let parkV ← ((dictLookup ld "parking").getD (.pdict [])).getD "3bhk_parking" .pnone
          pure [("unit_plan", up),
                ("pricing", PyVal.pdict [("3bhk", priceV)]),
                ("parking", PyVal.pdict [("3bhk", parkV)])]
        | none => pure []
      else if anyIn flatKw4 q then
        match dictLookup ld "4bhk_unit_plan" with
        | some up => do
          let priceV ← ((dictLookup ld "pricing").getD (.pdict [])).getD "box_price_3850" .pnone
          let parkV ← ((dictLookup ld "parking").getD (.pdict [])).getD "4bhk_parking" .pnone
          pure [("unit_plan", up),
                ("pricing", PyVal.pdict [("4bhk", priceV)]),
                ("parking", PyVal.pdict [("4bhk", parkV)])]
        | none => pure []
      else pure []
    let us2 :=
      match dictLookup ld "ground_floor_plan" with
      | some gfp => [("ground_floor_plan", gfp)]
      | none => []
    let us3 ←
      match dictLookup ld "construction_specifications" with
      | some cs => do
        let hasElev ← cs.hasKey "elevator"
        if hasElev then do
          let ev ← cs.idx "elevator"
          pure [("elevator", ev)]
        else pure []
      | none => pure []
    pure (us1 ++ us2 ++ us3)
  else pure []

/-- The hard-coded Block A zone dict of lines 337-379. -/
def blockAZoneLit : PyVal := .pdict [
  ("foyer", .pdict [("size", .pstr "14'-9\" Ã— 14'-6\""),
    ("function", .pstr "Entry point into Block A"),
    ("features", .pstr "Staircases (UP & DN) on both sides")]),
  ("lift_lobby", .pdict [("size", .pstr "8'-5\" Ã— 6'-8\""),
    ("lifts_count", .pstr "2 lifts")]),
  ("seating_space", .pdict [("size", .pstr "44'-0\" Ã— 21'-7\""),
    ("function", .pstr "Large sitting lounge outside Block A")]),
  ("society_office", .pdict [("size", .pstr "10'-3\" Ã— 16'-3\""),
    ("location", .pstr "Beside the seating lounge")]),
  ("store_society", .pdict [("size", .pstr "10'-3\" Ã— 5'-0\""),
    ("location", .pstr "Near the Society Office")]),
  ("toddlers_space", .pdict [("size", .pstr "16'-4\" Ã— 15'-9\""),
    ("function", .pstr "Play area for toddlers")]),
  ("store_toddlers", .pdict [("size", .pstr "11'-0\" Ã— 5'-7\""),
    ("location", .pstr "Near the Toddler's Space")]),
  ("toilet_toddlers", .pdict [("size", .pstr "6'-0\" Ã— 6'-7\""),
    ("location", .pstr "Near the Toddler's Space")]),
  ("other_utilities", .pdict [
    ("security", .pstr "Security Cabin with toilet at entry/exit gate"),
    ("meter_room", .pstr "Dedicated space for electrical meters"),
    ("parking", .pstr "Car parking spaces available"),
    ("drop_off", .pstr "Kids drop-off area"),
    ("ramp", .pstr "Basement ramp near Block A foyer"),
    ("water_feature", .pstr "Decorative water body beside walkway")])]

/-- The hard-coded Block B zone dict of lines 383-405. -/
def blockBZoneLit : PyVal := .pdict [
  ("foyer", .pdict [("size", .pstr "14'-0\" Ã— 19'-6\""),
    ("function", .pstr "Entry point into Block B"),
    ("features", .pstr "Staircases (UP & DN) on both sides")]),
  ("lift_lobby", .pdict [("size", .pstr "6'-8\" Ã— 8'-0\""),
    ("lifts_count", .pstr "2 lifts")]),
  ("gym", .pdict [("size", .pstr "17'-9\" Ã— 19'-3\""),
    ("function", .pstr "Fitness and exercise area")]),
  ("library_lounge", .pdict [("size", .pstr "18'-9\" Ã— 26'-5\""),
    ("function", .pstr "Library, Lounge, and Multi-Purpose Room")]),
  ("other_utilities", .pdict [
    ("sand_pit", .pstr "Children's play area"),
    ("postal", .pstr "Dedicated space for postal services")])]

/-- The hard-coded central-amenities dict of lines 409-428. -/
def centralAmenitiesLit : PyVal := .pdict [
  ("multipurpose_court", .pdict [("size", .pstr "40'-8\" Ã— 18'-11\""),
    ("location", .pstr "Center of complex"),
    ("features", .pstr "Surrounded by walkways")]),
  ("sand_pit", .pdict [("location", .pstr "Adjacent to multipurpose court"),
    ("function", .pstr "Children's play area")]),
  ("other_facilities", .plist [.pstr "Internal Roads", .pstr "Drop-Off Plaza",
    .pstr "Lawn Area", .pstr "DG Set", .pstr "Seating Blocks",
    .pstr "Ramp Down to Basement", .pstr "Water Fountain with sculpture"])]

/-- Lines 323-428: the ground-floor query block — summary/overview pulls
(with the unused `block_*_zone`/`central_amenities` `.get` reads of lines
331-333, kept because they can raise) and the three keyword-gated
hard-coded zone dicts. -/
def stageGroundFloorUpdates (q : String) (ld : PyDict) :
    Except PyErr (List (String × PyVal)) := do
  if anyIn ["ground floor", "ground level", "ground", "foyer", "entrance",
            "multipurpose", "court", "gym", "library", "toddler", "society",
            "seating", "lift", "stair", "amenity", "facility", "drop"] q then
    match dictLookup ld "ground_floor_plan" with
    | some gfp => do
      let summary ← gfp.getD "summary" (.pstr "")
      let overview ← gfp.getD "site_overview" (.pdict [])
      let _ ← gfp.getD "block_a_zone" (.pdict [])
      let _ ← gfp.getD "block_b_zone" (.pdict [])
      let _ ← gfp.getD "central_amenities" (.pdict [])
      let usA := if pyIn "block a" q ||
                    anyIn ["society", "toddler", "right side", "security"] q
                 then [("block_a_zone", blockAZoneLit)] else []
      let usB := if pyIn "block b" q || anyIn ["gym", "library", "left side"] q
                 then [("block_b_zone", blockBZoneLit)] else []
      let usC := if anyIn ["central", "amenity", "court", "sand pit", "lawn",
                           "facility", "fountain"] q
                 then [("central_amenities", centralAmenitiesLit)] else []
      pure ([("ground_floor_summary", summary),
             ("ground_floor_overview", overview)] ++ usA ++ usB ++ usC)
    | none => pure []
  else pure []

/-- Python's `next((config[field] for config in configs if
config['type'] == want), '')` over a list: first hit's field, else `''`. -/
def nextFieldAux : List PyVal → String → String → Except PyErr PyVal
  | [], _, _ => .ok (.pstr "")
  | c :: t, want, field => do
    let ty ← c.idx "type"
    if (match ty with | .pstr s => s == want | _ => false) then c.idx field
    else nextFieldAux t want field

/-- The same `next(...)` idiom for an arbitrary `configs` value: iterating
anything but a list (or an empty dict/string, whose iteration is empty)
reaches an element that is not a dict and raises. -/
def pyNextField (configs : PyVal) (want field : String) : Except PyErr PyVal :=
  match configs with
  | .plist xs => nextFieldAux xs want field
  | .pdict [] => .ok (.pstr "")
  | .pdict (_ :: _) => .error .typeErr
  | .pstr s => if s.isEmpty then .ok (.pstr "") else .error .typeErr
  | .pnone => .error .typeErr

/-- Lines 430-466: the unit-configuration/pricing block. -/
def stageUnitConfigUpdates (q : String) (ld : PyDict) :
    Except PyErr (List (String × PyVal)) := do
  if anyIn ["3bhk", "3 bhk", "price", "cost", "bhk", "bedroom", "size",
            "sqft", "configuration", "apartment", "flat", "carpet", "area",
            "dimension"] q then
    let us1 ←
      match dictLookup ld "unit_configurations" with
      | some configs => do
        let a1 ← pyNextField configs "3BHK" "size_sqft"
        let a2 ← pyNextField configs "3BHK" "carpet_area"
        let a3 ← pyNextField configs "3BHK" "size_sq_yard"
        let a4 ← pyNextField configs "3BHK" "price_cr"
        let b1 ← pyNextField configs "4BHK" "size_sqft"
        let b2 ← pyNextField configs "4BHK" "carpet_area"
        let b3 ← pyNextField configs "4BHK" "size_sq_yard"
        let b4 ← pyNextField configs "4BHK" "price_cr"
        pure [("unit_details", PyVal.pdict [
          ("3bhk", .pdict [("total_size", a1), ("carpet_area", a2),
                           ("size_yard", a3), ("price", a4)]),
          ("4bhk", .pdict [("total_size", b1), ("carpet_area", b2),
                           ("size_yard", b3), ("price", b4)])])]
      | none => pure []
    let us2 ←
      match dictLookup ld "3bhk_unit_plan" with
      | some up =>
        if pyIn "3bhk" q || pyIn "3 bhk" q || pyIn "carpet" q then do
          let ov ← up.idx "overview"
          let sf ← up.idx "special_features"
          let ab ← up.idx "area_breakdown"
          pure [("3bhk_details", PyVal.pdict [("overview", ov),
                 ("special_features", sf), ("area_breakdown", ab)])]
        else pure []
      | none => pure []
    let us3 ←
      match dictLookup ld "4bhk_unit_plan" with
      | some up =>
        if pyIn "4bhk" q || pyIn "4 bhk" q || pyIn "carpet" q then do
          let ov ← up.idx "overview"
          let sf ← up.idx "special_features"
          let ab ← up.idx "area_breakdown"
          pure [("4bhk_details", PyVal.pdict [("overview", ov),
                 ("special_features", sf), ("area_breakdown", ab)])]
        else pure []
      | none => pure []
    let us4 :=
      match dictLookup ld "pricing" with
      | some pr => [("pricing", pr)]
      | none => []
    pure (us1 ++ us2 ++ us3 ++ us4)
  else pure []

/-- The repeated shape `if any(kw in q): if SECTION in lang_data:
relevant_data[KEY] = lang_data[SECTION]` (stages at lines 468-472, 475-477,
480-482, 485-487, 501-504, 506-509, 511-513, 515-517, 519-521, 523-525). -/
def copySectionUpdates (kws : List String) (sectionKey targetKey : String)
    (q : String) (ld : PyDict) : List (String × PyVal) :=
  if anyIn kws q then
    match dictLookup ld sectionKey with
    | some v => [(targetKey, v)]
    | none => []
  else []

/-- Lines 489-499: the second elevator block, with the unguarded
`lang_data['ground_floor_plan']['block_a_zone']` / `['block_b_zone']`
indexing that raises `KeyError` when a zone is missing. -/
def stageElevatorDetailUpdates (q : String) (ld : PyDict) :
    Except PyErr (List (String × PyVal)) := do
  if anyIn ["elevator", "lift", "lifts"] q then
    let us1 ←
      match dictLookup ld "construction_specifications" with
      | some cs => do
        let hasElev ← cs.hasKey "elevator"
        if hasElev then do
          let ev ← cs.idx "elevator"
          pure [("elevator", ev)]
        else pure []
      | none => pure []
    let us2 ←
      match dictLookup ld "ground_floor_plan" with
      | some gfp => do
        let baz ← gfp.idx "block_a_zone"
        let aLifts ← baz.getD "lift_lobby" (.pdict [])
        let bbz ← gfp.idx "block_b_zone"
        let bLifts ← bbz.getD "lift_lobby" (.pdict [])
        pure [("elevators_detail", PyVal.pdict [("block_a", aLifts),
               ("block_b", bLifts)])]
      | none => pure []
    pure (us1 ++ us2)
  else pure []

/-- All topic checks of `extract_relevant_data` in source order, before the
final `len(relevant_data) <= 2` fallback. -/
def extractTopicsPhase (user_question : String) (faq_data : FaqData)
    (language : String) : Except PyErr PyDict := do
  let ld := faqGet faq_data language
  let q := asciiLower user_question
  let d := relevantInit ld
  let u1 ← stageAllKeywordsUpdates q ld
  let d := applyUpdates d u1
  let u2 ← stageGroundFloorUpdates q ld
  let d := applyUpdates d u2
  let u3 ← stageUnitConfigUpdates q ld
  let d := applyUpdates d u3
  let d := applyUpdates d (copySectionUpdates ["kitchen", "room", "bedroom",
    "living", "dining", "bathroom", "toilet", "balcony"] "3bhk_unit_plan"
    "3bhk_unit_plan" q ld)
  let d := applyUpdates d (copySectionUpdates ["kitchen", "room", "bedroom",
    "living", "dining", "bathroom", "toilet", "balcony"] "4bhk_unit_plan"
    "4bhk_unit_plan" q ld)
  let d := applyUpdates d (copySectionUpdates ["elevator", "lift"]
    "elevator" "elevator" q ld)
  let d := applyUpdates d (copySectionUpdates ["parking", "car park",
    "vehicle"] "parking" "parking" q ld)
  let d := applyUpdates d (copySectionUpdates ["structure", "flooring",
    "bathroom", "kitchen", "elevator", "electrical", "doors", "windows",
    "security", "water", "specifications", "features"] "specifications"
    "specifications" q ld)
  let u8 ← stageElevatorDetailUpdates q ld
  let d := applyUpdates d u8
  let d := applyUpdates d (copySectionUpdates ["parking", "car park",
    "vehicle", "cars"] "parking" "parking" q ld)
  let d := applyUpdates d (copySectionUpdates ["structure", "flooring",
    "bathroom", "kitchen", "electrical", "doors", "windows", "security",
    "water", "specifications", "features"] "construction_specifications"
    "specifications" q ld)
  let d := applyUpdates d (copySectionUpdates ["amenity", "amenities",
    "facility", "gym", "pool", "park", "club"] "amenities" "amenities" q ld)
  let d := applyUpdates d (copySectionUpdates ["location", "address",
    "connectivity", "metro", "nearby", "landmark"] "location_details"
    "location_details" q ld)
  let d := applyUpdates d (copySectionUpdates ["possession", "ready",
    "completion", "timeline", "delivery"] "possession_details"
    "possession_details" q ld)
  let d := applyUpdates d (copySectionUpdates ["developer", "shatranj",
    "aarat", "group", "company", "builder"] "developer_portfolio"
    "developer_portfolio" q ld)
  pure d

/-- The fixed fallback sections of line 529. -/
def fallbackSections : List String :=
  ["unit_configurations", "pricing", "3bhk_unit_plan", "4bhk_unit_plan",
   "amenities", "location_details"]

/-- Lines 528-531: merge every fallback section the tree has. -/
def broadenFallback (ld : PyDict) (d : PyDict) : PyDict :=
  fallbackSections.foldl (fun d s =>
    match dictLookup ld s with
    | some v => dictSet d s v
    | none => d) d

/-- `extract_relevant_data`: the topic phase, then the fallback broadening
when at most two entries accumulated.  A pure function of its three
arguments — the knowledge base is never mutated (no construct of this
embedding could). -/
def extract_relevant_data (user_question : String) (faq_data : FaqData)
    (language : String) : Except PyErr PyDict := do
  let d ← extractTopicsPhase user_question faq_data language
  let ld := faqGet faq_data language
  pure (if d.length ≤ 2 then broadenFallback ld d else d)

/-! ## Phone and date patterns (lines 668, 824, 848)

`re.search(r'\b(?:\+91[\s-]?)?[6-9]\d{9}\b', text)` and
`re.match(r'\d{1,2}[SLASH-]\d{1,2}[SLASH-]\d{4}', text)`.  Python scans start
positions left to right and backtracks greedily through the optional group
and its optional separator; both are reproduced below. -/

/-- Exactly `n` digits at the head: the digits and the remainder. -/
def takeDigitsN : Nat → List Char → Option (List Char × List Char)
  | 0, cs => some ([], cs)
  | _ + 1, [] => none
  | n + 1, c :: cs =>
    if isDigitCh c then
      match takeDigitsN n cs with
      | some (d, r) => some (c :: d, r)
      | none => none
    else none

/-- `[6-9]\d{9}\b` at the head of `cs` (the closing boundary holds when the
input ends or a non-word character follows). -/
def phoneCore (cs : List Char) : Option (List Char) :=
  match cs with
  | [] => none
  | c :: rest =>
    if '6' ≤ c && c ≤ '9' then
      match takeDigitsN 9 rest with
      | some (d, r) =>
        match r with
        | [] => some (c :: d)
        | c' :: _ => if isWordCh c' then none else some (c :: d)
      | none => none
    else none

/-- The pattern at one start position: the opening `\b`, then the optional
`\+91[\s-]?` group (greedy: taken first, its separator taken first), then
`[6-9]\d{9}\b`. -/
def phoneMatchAt (prev : Option Char) (cs : List Char) : Option (List Char) :=
  let boundary :=
    match prev, cs with
    | _, [] => false
    | none, c :: _ => isWordCh c
    | some p, c :: _ => isWordCh p != isWordCh c
  if !boundary then none
  else
    let withGroup :=
      match cs with
      | '+' :: '9' :: '1' :: rest =>
        (match rest with
         | s :: rest2 =>
           if isPySpace s || s = '-' then
             (phoneCore rest2).map fun m => '+' :: '9' :: '1' :: s :: m
           else none
         | [] => none).orElse fun _ =>
          (phoneCore rest).map fun m => '+' :: '9' :: '1' :: m
      | _ => none
    withGroup.orElse fun _ => phoneCore cs

def phoneSearchAux : Option Char → List Char → Option (List Char)
  | prev, [] => phoneMatchAt prev []
  | prev, c :: rest =>
    match phoneMatchAt prev (c :: rest) with
    | some m => some m
    | none => phoneSearchAux (some c) rest

/-- `re.search` of the phone pattern, returning `match.group()`. -/
def phoneSearch (text : String) : Option String :=
  (phoneSearchAux none text.data).map String.mk

/-- A date separator, `[SLASH-]`. -/
def isSepCh (c : Char) : Bool := c = '/' || c = '-'

/-- `\d{1,2}[SLASH-]` at the head (two digits tried first, as the greedy
quantifier does; a two-digit parse and a one-digit parse can never both
continue, so this is the whole backtracking). -/
def dayMonthSeg (cs : List Char) : Option (List Char) :=
  match cs with
  | a :: b :: c :: rest =>
    if isDigitCh a && isDigitCh b && isSepCh c then some rest
    else if isDigitCh a && isSepCh b then some (c :: rest)
    else none
  | [a, b] => if isDigitCh a && isSepCh b then some [] else none
  | _ => none

/-- `re.match(r'\d{1,2}[SLASH-]\d{1,2}[SLASH-]\d{4}', text)` as a Bool: does a
match object exist (the source only tests truthiness)? -/
def date_match_head (text : String) : Bool :=
  match dayMonthSeg text.data with
  | none => false
  | some r1 =>
    match dayMonthSeg r1 with
    | none => false
    | some r2 => (takeDigitsN 4 r2).isSome

/-! ## Prompt builder (`create_gemini_prompt`, lines 536-596)

`json.dumps(relevant_data, indent=2)` is modelled by a compact structural
serializer (`pyJsonVal`): the exact whitespace and ASCII `\uXXXX` escaping
of CPython are not reproduced — no claim depends on the rendering — but
the serialized structure and content are. -/

mutual

def pyJsonVal : PyVal → String
  | .pstr s => "\"" ++ s ++ "\""
  | .pnone => "null"
  | .plist xs => "[" ++ pyJsonSeq xs ++ "]"
  | .pdict es => "\x7b" ++ pyJsonEntries es ++ "\x7d"

def pyJsonSeq : List PyVal → String
  | [] => ""
  | [x] => pyJsonVal x
  | x :: xs => pyJsonVal x ++ ", " ++ pyJsonSeq xs

def pyJsonEntries : List (String × PyVal) → String
  | [] => ""
  | [(k, v)] => "\"" ++ k ++ "\": " ++ pyJsonVal v
  | (k, v) :: es => "\"" ++ k ++ "\": " ++ pyJsonVal v ++ ", " ++ pyJsonEntries es

end

/-- The prompt's fixed instruction text (lines 549-594), with its five
language-dependent holes filled; the numbered rules include the hard
1000-character ceiling, the one-follow-up-question mandate and the
only-this-phone-number rule. -/
def geminiPromptText (user_question : String) (relevant_data : PyDict)
    (language : String) (conversation_context : String) : String :=
  "\nYou are a helpful real estate chatbot for the Brookstone project. Answer user questions based on the provided project data and conversation context. " ++
  (if language = "gujarati" then "Use Gujarati language for responses."
   else "Use English language for responses.") ++
  "\n\nPROJECT DATA:\n" ++ pyJsonVal (.pdict relevant_data) ++
  conversation_context ++
  "\n\nUSER QUESTION: " ++ user_question ++
  "\n\nINSTRUCTIONS:\n1. ALWAYS use the PROJECT DATA provided above to answer questions\n2. Consider the RECENT CONVERSATION context - if user says \"yes\", \"sure\", \"please\", they are responding to your previous question\n3. If any detail shows \"TBD\", say " ++
  (if language = "gujarati" then "àª† àªµàª¿àª—àª¤ àª¹àªœà«€ àª¨àª•à«àª•à«€ àª•àª°àªµàª¾àª¨à«€ àª¬àª¾àª•à«€ àª›à«‡"
   else "This detail is yet to be finalized") ++
  "\n4. Keep responses concise but comprehensive (max 1000 characters for WhatsApp)\n5. For possession date, mention " ++
  (if language = "gujarati" then "àª®à«‡ 2027" else "May 2027") ++
  "\n6. After answering, ask 1 natural follow-up question to keep conversation going\n7. Be conversational and friendly like a real sales agent\n8. NEVER suggest WhatsApp links - only provide phone numbers\n9. For agent contact, ONLY provide phone number +91 1234567890\n10. Format your response for WhatsApp - use emojis and clear structure\n\n11. For ground floor questions:\n    - Always mention specific dimensions when available\n    - Describe the layout and connections between spaces\n    - Include details about amenities and facilities\n    - If size/dimension is asked but not available, acknowledge that and provide other relevant details\n\n12. When mentioning sizes or dimensions:\n    - Use the exact measurements as provided in the data\n    - Format dimensions clearly with proper units (e.g., \"14'-9\" Ã— 14'-6\"\")\n    - For carpet area, specify it's carpet area (àª•àª¾àª°à«àªªà«‡àªŸ àªàª°àª¿àª¯àª¾ in Gujarati)\n    - For total area, specify it's total built-up area (àª•à«àª² àª¬àª¿àª²à«àªŸ-àª…àªª àªàª°àª¿àª¯àª¾ in Gujarati)\n\n13. For BHK queries:\n    - Always mention both carpet area and total area\n    - Include price when available\n    - Specify number of bathrooms and balconies\n    - Mention key features of the layout\n    - If asking about 3BHK, provide 3BHK details first, then briefly mention 4BHK is also available\n    - If asking about 4BHK, provide 4BHK details first, then briefly mention 3BHK is also available\n\n14. Language-specific formatting:\n    - Use native number format for Gujarati (à«§,à«¨,à«©,à«ª,à««,à«¬,à«­,à«®,à«¯,à«¦)\n    - Use appropriate units: " ++
  (if language = "gujarati" then "àªšà«‹.àª«à«‚àªŸ for sqft, àª•àª°à«‹àª¡ for crore"
   else "sq ft for area, Cr for crore") ++
  "\n    - Use native terms for amenities and facilities when in Gujarati\n\nANSWER:"

/-- `create_gemini_prompt`: the relevance filter's output (whose topic
checks can raise, propagated), the last up-to-4 history turns rendered as
role-tagged lines, and the fixed instruction block. -/
def create_gemini_prompt (user_question : String) (faq_data : FaqData)
    (language : String) (chat_history : List (String × Bool)) :
    Except PyErr String := do
  let relevant_data ← extract_relevant_data user_question faq_data language
  let conversation_context :=
    if chat_history.length > 0 then
      let recent_history :=
        if chat_history.length > 4 then chat_history.drop (chat_history.length - 4)
        else chat_history
      "\n\nRECENT CONVERSATION:\n" ++
        String.join (recent_history.map fun mu =>
          (if mu.2 then "User" else "Bot") ++ ": " ++ mu.1 ++ "\n")
    else ""
  pure (geminiPromptText user_question relevant_data language conversation_context)

/-! ## Conversation state (`CONV_STATE`, lines 52-54 and 646-656) -/

/-- The per-user `booking_info` dict: each key absent (`none`) until the
corresponding step writes it. -/
structure BookingInfo where
  current_step : Option String := none
  name : Option String := none
  phone : Option String := none
  date : Option String := none
  time : Option String := none
  unit_type : Option String := none
  budget : Option String := none
deriving Repr, DecidableEq

/-- Python truthiness of the `booking_info` dict (line 961). -/
def BookingInfo.nonempty (b : BookingInfo) : Bool :=
  b.current_step.isSome || b.name.isSome || b.phone.isSome || b.date.isSome ||
  b.time.isSome || b.unit_type.isSome || b.budget.isSome

/-- One user's conversation state. -/
structure ConvSt where
  chat_history : List (String × Bool)
  lead_capture_mode : Option String
  user_phone : String
  language : String
  asked_about_brochure : Bool
  booking_info : BookingInfo
deriving Repr, DecidableEq

/-- The state created on first contact (lines 646-654). -/
def freshState (from_phone : String) : ConvSt :=
  { chat_history := [], lead_capture_mode := none, user_phone := from_phone,
    language := "english", asked_about_brochure := false, booking_info := {} }

/-! ## Effects and environment -/

/-- A call made to an external collaborator during a turn. -/
inductive Effect where
  | sendDocument (to_phone document_id caption : String)
  | sendText (to_phone : String) (body : Option String)
  | markAsRead (message_id : String)
  | gem (e : GemEvent)
  | updateCell (row col : Nat) (value : String)
deriving Repr, DecidableEq

/-- `BROCHURE_MEDIA_ID` (line 28, the default value). -/
def BROCHURE_MEDIA_ID : String := "1562506805130847"

/-- The default caption of `send_whatsapp_document` (line 94). -/
def brochureCaption : String := "Here is your Brookstone Brochure ğŸ“„"

/-- One turn's external world: the knowledge base, whether the Gemini key
is configured, the result the transport reports for a document send, and
the Gemini attempt outcomes. -/
structure TurnEnv where
  faq : FaqData
  hasGeminiKey : Bool
  docSendOk : Bool
  gemAttempts : Nat → GemAttempt

/-- Which router branch produced the turn's outcome (instrumentation over
the source's return points; §4.6's steps 2-8). -/
inductive BranchTag where
  | phoneForBrochure
  | brochureRequest
  | brochureAffirm
  | contactRequest
  | bookingRedirect
  | bookingStep
  | generalQuestion
deriving Repr, DecidableEq

/-- A turn's outcome: the returned value (or the exception that escaped
`process_incoming_message`), the user's state as mutated so far, the calls
made, and the branch that decided the turn. -/
structure ProcessOut where
  result : Except PyErr (Option String)
  state : ConvSt
  effects : List Effect
  branch : BranchTag
deriving Repr

/-! ## Reply templates (verbatim from the source, double-encoding kept) -/

/-- Line 694. -/
def brochure_keywords : List String :=
  ["brochure", "pdf", "download", "send brochure", "share brochure",
   "floor plan", "send pdf"]

/-- Line 714. -/
def affirmative_patterns : List String :=
  ["yes", "yeah", "yup", "sure", "ok", "okay", "please", "send", "want", "need"]

/-- Line 728. -/
def contact_patterns : List String :=
  ["whatsapp chat", "whatsapp number", "agent whatsapp", "contact agent",
   "agent contact", "talk to agent"]

/-- Line 745. -/
def booking_keywords_english : List String :=
  ["book site visit", "schedule visit", "site visit", "book appointment",
   "visit booking"]

/-- Line 746. -/
def booking_keywords_gujarati : List String :=
  ["àª¸àª¾àª‡àªŸ àªµàª¿àªàª¿àªŸ", "àªàªªà«‹àª‡àª¨à«àªŸàª®à«‡àª¨à«àªŸ", "àªµàª¿àªàª¿àªŸ àª¬à«àª•", "àª®à«àª²àª¾àª•àª¾àª¤", "àª¸àª¾àª‡àªŸ àªœà«‹àªµàª¾"]

/-- Lines 679-681. -/
def phoneBrochureFailReply : String :=
  "I apologize, but there was an issue sending the brochure to your WhatsApp. \n\nPlease try again later or contact our agent directly at +91 1234567890."

/-- Lines 687-689. -/
def phoneRepromptReply : String :=
  "I didn't find a valid phone number. Please share your *10-digit mobile number* to send the brochure.\n\nFor example: 9876543210 or +91 9876543210"

/-- Lines 702-704. -/
def brochureFailReply : String :=
  "I apologize, but there was an issue sending the brochure.\n\nPlease contact our agent at +91 1234567890 for assistance."

/-- Lines 720-721. -/
def brochureAffirmFailReply : String :=
  "âŒ There was an issue sending your brochure on WhatsApp.\nPlease contact our agent at +91 1234567890."

/-- Lines 731-739. -/
def contactReply : String :=
  "Great! You can reach our agent, Shatranj, directly on WhatsApp at:\n\nğŸ“± *WhatsApp Number:* +91 1234567890\n\nOur team will respond within 30 minutes during office hours (10 AM - 7 PM).\n\nYou can also call on the same number for a phone conversation.\n\nIs there anything else about Brookstone I can help you with? ğŸ\u00A0"

/-- Line 750. -/
def english_form_url : String :=
  "https://docs.google.com/forms/d/e/1FAIpQLSceds-nIr9vTLHJ0Jl1TOv0DNYGQhb0CtEa2R3mA9Ae3iP8Lg/viewform"

/-- Line 751. -/
def gujarati_form_url : String :=
  "https://docs.google.com/forms/d/e/1FAIpQLSdmWOyIDKZ5KU47LhzKUJXwITN40Fn8tV8swuX7IIWFvB72qQ/viewform"

/-- Lines 754-771. -/
def bookingRedirectGujaratiReply : String :=
  "ğŸ\u00A0 *àª¬à«àª°à«‚àª•àª¸à«àªŸà«‹àª¨ àª¸àª¾àª‡àªŸ àªµàª¿àªàª¿àªŸ àª¬à«àª•àª¿àª‚àª—*\n\nàª¤àª®àª¾àª°à«€ àª¸àª¾àª‡àªŸ àªµàª¿àªàª¿àªŸ àª¶à«‡àª¡à«àª¯à«‚àª² àª•àª°àªµàª¾ àª®àª¾àªŸà«‡, àª¨à«€àªšà«‡àª¨à«€ àª²àª¿àª‚àª• àªªàª° àª•à«àª²àª¿àª• àª•àª°à«‹ àª…àª¨à«‡ àª«à«‹àª°à«àª® àª­àª°à«‹:\n\nğŸ“ " ++
  gujarati_form_url ++
  "\n\nàª«à«‹àª°à«àª®àª®àª¾àª‚ àª† àª®àª¾àª¹àª¿àª¤à«€ àªªà«‚àª›àªµàª¾àª®àª¾àª‚ àª†àªµàª¶à«‡:\nâ€¢ àª¤àª®àª¾àª°à«àª‚ àª¨àª¾àª®\nâ€¢ àª•à«‹àª¨à«àªŸà«‡àª•à«àªŸ àª¨àª‚àª¬àª°\nâ€¢ àªªàª¸àª‚àª¦àª—à«€àª¨à«€ àª¤àª¾àª°à«€àª– àª…àª¨à«‡ àª¸àª®àª¯\nâ€¢ àª¯à«àª¨àª¿àªŸ àªªàª¸àª‚àª¦àª—à«€\nâ€¢ àª¬àªœà«‡àªŸ àª°à«‡àª¨à«àªœ\n\nàª«à«‹àª°à«àª® àª¸àª¬àª®àª¿àªŸ àª•àª°à«àª¯àª¾ àªªàª›à«€, àª¤àª®àª¨à«‡ 15 àª®àª¿àª¨àª¿àªŸàª¨à«€ àª…àª‚àª¦àª° WhatsApp àªªàª° àª•àª¨à«àª«àª°à«àª®à«‡àª¶àª¨ àª®à«‡àª¸à«‡àªœ àª®àª³àª¶à«‡.\n\nàª«à«‹àª°à«àª® àª­àª°àªµàª¾àª®àª¾àª‚ àª•à«‹àªˆ àª®àª¦àª¦ àªœà«‹àªˆàª àª›à«‡? àªªà«‚àª›àªµàª¾àª®àª¾àª‚ àª¸àª‚àª•à«‹àªš àª¨ àª•àª°àª¶à«‹! ğŸ˜Š\n\n_àª¨à«‹àª‚àª§: àª•à«ƒàªªàª¾ àª•àª°à«€àª¨à«‡ àª«à«‹àª°à«àª®àª®àª¾àª‚ àª¸àª¾àªšà«‹ àª•à«‹àª¨à«àªŸà«‡àª•à«àªŸ àª¨àª‚àª¬àª° àª†àªªàª¶à«‹, àª•àª¾àª°àª£ àª•à«‡ àª…àª®à«‡ àª àªœ WhatsApp àª¨àª‚àª¬àª° àªªàª° àª•àª¨à«àª«àª°à«àª®à«‡àª¶àª¨ àª®à«‹àª•àª²à«€àª¶à«àª‚._ ğŸ“±"

/-- Lines 773-790. -/
def bookingRedirectEnglishReply : String :=
  "ğŸ\u00A0 *Book Your Site Visit to Brookstone*\n\nTo schedule your site visit, please click the link below and fill out a quick form:\n\nğŸ“ " ++
  english_form_url ++
  "\n\nThe form will ask for:\nâ€¢ Your Name\nâ€¢ Contact Number\nâ€¢ Preferred Date & Time\nâ€¢ Unit Type Interest\nâ€¢ Budget Range\n\nOnce you submit the form, you will receive a confirmation message here on WhatsApp within 15 minutes.\n\nNeed help with the form? Feel free to ask! ğŸ˜Š\n\n_Tip: Make sure to provide accurate contact details in the form as we'll send the confirmation on the same WhatsApp number._ ğŸ“±"

/-- Lines 807-814 (the name step's f-string). -/
def nameStepReply (message_text from_phone : String) : String :=
  "Thank you, " ++ message_text ++ "! ğŸ“\n\nI have your phone number as: *" ++
  from_phone ++
  "*\nIs this the correct number for the site visit coordination?\n\nReply with:\n1ï¸âƒ£ *Yes* to confirm this number\n2ï¸âƒ£ Or type your *alternate number*"

/-- Lines 829-831. -/
def confirmPhoneRepromptReply : String :=
  "Please provide a valid 10-digit phone number or type *Yes* to confirm the existing number.\n\nExample: 9876543210 or +91 9876543210"

/-- Lines 838-841. -/
def datePromptReply : String :=
  "Great! Now, please tell me your *preferred date* for the site visit.\n\nFormat: DD/MM/YYYY\nExample: 05/11/2025"

/-- Lines 850-852. -/
def dateRepromptReply : String :=
  "Please provide the date in the correct format (DD/MM/YYYY).\n\nExample: 05/11/2025"

/-- Lines 859-868. -/
def timePromptReply : String :=
  "Perfect! Now, please select your *preferred time* for the site visit.\n\nAvailable slots:\n1ï¸âƒ£ 10:00 AM\n2ï¸âƒ£ 11:30 AM\n3ï¸âƒ£ 02:00 PM\n4ï¸âƒ£ 03:30 PM\n5ï¸âƒ£ 05:00 PM\n\nReply with the slot number (1-5) or type the time."

/-- Lines 874-880. -/
def time_slots : List (String × String) :=
  [("1", "10:00 AM"), ("2", "11:30 AM"), ("3", "02:00 PM"),
   ("4", "03:30 PM"), ("5", "05:00 PM")]

/-- Lines 890-896. -/
def unitPromptReply : String :=
  "Excellent! Which unit type are you interested in?\n\n1ï¸âƒ£ *3 BHK* (2650 sq ft)\n2ï¸âƒ£ *4 BHK* (3850 sq ft)\n3ï¸âƒ£ *Both options*\n\nPlease reply with 1, 2, or 3."

/-- Lines 902-906. -/
def unit_types : List (String × String) :=
  [("1", "3 BHK"), ("2", "4 BHK"), ("3", "Both 3 & 4 BHK")]

/-- Lines 909-912. -/
def unitRepromptReply : String :=
  "Please select a valid option:\n1ï¸âƒ£ for 3 BHK\n2ï¸âƒ£ for 4 BHK\n3ï¸âƒ£ for Both options"

/-- Lines 919-926. -/
def budgetPromptReply : String :=
  "Almost done! ğŸ¯\n\nWhat is your *approximate budget*?\n\nExample formats:\nâ€¢ 1.5 Cr\nâ€¢ 2 Crore\nâ€¢ 150 Lakhs"

/-- Lines 934-935. -/
def budgetRepromptReply : String :=
  "Please specify your budget in a clear format:\nExample: 1.5 Cr, 2 Crore, or 150 Lakhs"

/-- Line 942 (same form as line 750). -/
def google_form_url : String := english_form_url

/-- Lines 947-953 (the completion template; the source's replacement
characters are kept as stored). -/
def bookingCompleteReply : String :=
  "ï¿½ To complete your booking, please fill out our site visit form:\n\nğŸ“ " ++
  google_form_url ++
  "\n\nOnce you submit the form, you'll receive a confirmation message with all the details.\n\nNeed help with anything else? ï¿½"

/-! ## The turn router (`process_incoming_message`, lines 642-972) -/

/-- Append the bot's reply to the history (`state['chat_history'].append((reply, False))`). -/
def appendBot (st : ConvSt) (reply : String) : ConvSt :=
  { st with chat_history := st.chat_history ++ [(reply, false)] }

/-- Lines 959-972: the budget-for-logging check (no state effect) and the
default Gemini turn. -/
def defaultTurn (env : TurnEnv) (message_text : String) (st : ConvSt) :
    ProcessOut :=
  let _ := (extract_budget_from_text message_text).isSome && st.booking_info.nonempty
  match create_gemini_prompt message_text env.faq st.language st.chat_history with
  | .error e => { result := .error e, state := st, effects := [],
                  branch := .generalQuestion }
  | .ok prompt =>
    let g := call_gemini_api env.hasGeminiKey env.gemAttempts prompt st.language
    { result := .ok (some g.1), state := appendBot st g.1,
      effects := g.2.map Effect.gem, branch := .generalQuestion }

/-- Lines 798-957: the step-by-step booking dispatch (§4.6 step 7). -/
def bookingTurn (env : TurnEnv) (from_phone message_text user_lower : String)
    (st : ConvSt) : ProcessOut :=
  let bi := st.booking_info
  let reprompt : String → ProcessOut := fun reply =>
    { result := .ok (some reply), state := appendBot st reply, effects := [],
      branch := .bookingStep }
  match bi.current_step with
  | some "name" =>
    let bi2 := { bi with name := some message_text,
                         current_step := some "confirm_phone" }
    let reply := nameStepReply message_text from_phone
    { result := .ok (some reply),
      state := appendBot { st with booking_info := bi2 } reply,
      effects := [], branch := .bookingStep }
  | some "confirm_phone" =>
    let proceed : String → ProcessOut := fun phone =>
      let bi2 := { bi with phone := some phone, current_step := some "date" }
      { result := .ok (some datePromptReply),
        state := appendBot { st with booking_info := bi2 } datePromptReply,
        effects := [], branch := .bookingStep }
    if user_lower = "yes" || user_lower = "1" then
      -- line 821: `phone = booking_info['phone']` — KeyError when unset
      match bi.phone with
      | some phone => proceed phone
      | none => { result := .error (.keyErr "phone"), state := st,
                  effects := [], branch := .bookingStep }
    else
      match phoneSearch message_text with
      | some m => proceed (removeCh '-' (removeCh ' ' m))
      | none => reprompt confirmPhoneRepromptReply
  | some "date" =>
    if date_match_head message_text then
      let bi2 := { bi with date := some message_text,
                           current_step := some "time" }
      { result := .ok (some timePromptReply),
        state := appendBot { st with booking_info := bi2 } timePromptReply,
        effects := [], branch := .bookingStep }
    else reprompt dateRepromptReply
  | some "time" =>
    let time_slot := (time_slots.lookup message_text).getD message_text
    let bi2 := { bi with time := some time_slot,
                         current_step := some "unit_type" }
    { result := .ok (some unitPromptReply),
      state := appendBot { st with booking_info := bi2 } unitPromptReply,
      effects := [], branch := .bookingStep }
  | some "unit_type" =>
    if message_text = "1" || message_text = "2" || message_text = "3" then
      -- `unit_types[message_text]` cannot miss under the guard above
      let bi2 := { bi with unit_type := some ((unit_types.lookup message_text).getD ""),
                           current_step := some "budget" }
      { result := .ok (some budgetPromptReply),
        state := appendBot { st with booking_info := bi2 } budgetPromptReply,
        effects := [], branch := .bookingStep }
    else reprompt unitRepromptReply
  | some "budget" =>
    match extract_budget_from_text message_text with
    | none => reprompt budgetRepromptReply
    | some budget =>
      let bi2 := { bi with budget := some budget }
      let stDone := { st with booking_info := bi2, lead_capture_mode := none,
                              asked_about_brochure := true }
      { result := .ok (some bookingCompleteReply),
        state := appendBot stDone bookingCompleteReply,
        effects := [], branch := .bookingStep }
  | _ => defaultTurn env message_text st  -- an unknown step falls out of the dispatch

/-- Lines 727-972, §4.6 steps 5-8: the contact request, the booking-form
redirect, the booking dispatch and the default turn — the checks that run
when no earlier branch fired. -/
def restOfTurn (env : TurnEnv) (from_phone message_text user_lower : String)
    (st : ConvSt) : ProcessOut :=
  if anyIn contact_patterns user_lower then
    { result := .ok (some contactReply), state := appendBot st contactReply,
      effects := [], branch := .contactRequest }
  else if anyIn (booking_keywords_english ++ booking_keywords_gujarati) user_lower then
    let reply := if st.language = "gujarati" then bookingRedirectGujaratiReply
                 else bookingRedirectEnglishReply
    { result := .ok (some reply), state := appendBot st reply, effects := [],
      branch := .bookingRedirect }
  else if st.lead_capture_mode = some "booking" then
    bookingTurn env from_phone message_text user_lower st
  else defaultTurn env message_text st

/-- One turn.  `existing` is the state the process-wide map holds for the
sender (the caller creates the fresh state on first contact, as lines
646-654 do before anything else); the returned state is what the map holds
afterwards, also when an exception escaped mid-turn. -/
def process_incoming_message (env : TurnEnv) (existing : Option ConvSt)
    (from_phone message_text message_id : String) : ProcessOut :=
  let _ := message_id  -- used only by the webhook's mark-as-read bookkeeping
  let st0 := match existing with | some st => st | none => freshState from_phone
  let user_lower := pyStrip (asciiLower message_text)
  -- lines 659-664: detect language, then append the inbound message
  let st2 := { st0 with language := detect_language message_text,
                        chat_history := st0.chat_history ++ [(message_text, true)] }
  -- step 2: awaiting a phone number for the brochure (lines 667-691)
  if st2.lead_capture_mode = some "phone_for_brochure" then
    match phoneSearch message_text with
    | some m =>
      let phone_number := removeCh '-' (removeCh ' ' m)
      let st3 := { st2 with user_phone := phone_number, lead_capture_mode := none }
      let effs := [Effect.sendDocument phone_number BROCHURE_MEDIA_ID brochureCaption]
      if env.docSendOk then
        { result := .ok none, state := st3, effects := effs,
          branch := .phoneForBrochure }
      else
        { result := .ok (some phoneBrochureFailReply),
          state := appendBot st3 phoneBrochureFailReply, effects := effs,
          branch := .phoneForBrochure }
    | none =>
      { result := .ok (some phoneRepromptReply),
        state := appendBot st2 phoneRepromptReply, effects := [],
        branch := .phoneForBrochure }
  -- step 3: a document-request keyword (lines 693-708)
  else if anyIn brochure_keywords user_lower then
    let st3 := { st2 with asked_about_brochure := true }
    let effs := [Effect.sendDocument from_phone BROCHURE_MEDIA_ID brochureCaption]
    if env.docSendOk then
      { result := .ok none, state := st3, effects := effs,
        branch := .brochureRequest }
    else
      { result := .ok (some brochureFailReply),
        state := appendBot st3 brochureFailReply, effects := effs,
        branch := .brochureRequest }
  else
    -- step 4: the affirmative follow-up (lines 710-725); the flag is
    -- cleared first, and a non-affirmative message falls through
    let st3 := if st2.asked_about_brochure then
                 { st2 with asked_about_brochure := false }
               else st2
    if st2.asked_about_brochure && anyIn affirmative_patterns user_lower then
      let effs := [Effect.sendDocument from_phone BROCHURE_MEDIA_ID brochureCaption]
      if env.docSendOk then
        { result := .ok none, state := st3, effects := effs,
          branch := .brochureAffirm }
      else
        { result := .ok (some brochureAffirmFailReply),
          state := appendBot st3 brochureAffirmFailReply, effects := effs,
          branch := .brochureAffirm }
    else restOfTurn env from_phone message_text user_lower st3

/-! ## Webhook delivery handling (`webhook`, lines 993-1044)

One POST delivery carries `entry[*].changes[*].value.messages[*]`; the
handler extracts each message's text (plain body, button text, or an
interactive button/list reply title — whichever the type provides, empty
when absent), skips text-less messages with a warning, marks the message
read, processes it and sends the response.  The whole nested loop sits in
one `try`, and the delivery is acknowledged 200 regardless. -/

/-- The process-wide `CONV_STATE` map. -/
abbrev StateMap := List (String × ConvSt)

def stLookup : StateMap → String → Option ConvSt
  | [], _ => none
  | (k, v) :: t, key => if k = key then some v else stLookup t key

def stSet : StateMap → String → ConvSt → StateMap
  | [], key, v => [(key, v)]
  | (k, w) :: t, key, v =>
    if k = key then (k, v) :: t else (k, w) :: stSet t key v

/-- What one inbound message carries, after the type dispatch of lines
1013-1024; a field the payload lacks surfaces as the empty string. -/
inductive MsgContent where
  | text (body : String)
  | button (body : String)
  | interactiveButtonReply (title : String)
  | interactiveListReply (title : String)
  | unsupported
deriving Repr, DecidableEq

/-- One element of a delivery's `messages` list. -/
structure InboundMessage where
  from_phone : String
  msg_id : String
  content : MsgContent
deriving Repr, DecidableEq

/-- Lines 1013-1024: the first non-empty text source for the type. -/
def messageText : MsgContent → String
  | .text b => b
  | .button b => b
  | .interactiveButtonReply t => t
  | .interactiveListReply t => t
  | .unsupported => ""

/-- The flattened message loop.  `k` indexes the per-turn environments.  A
message with no text is skipped (`continue`, line 1028) and its siblings
still run; an exception out of `process_incoming_message` leaves the `for`
loops to the handler's `except` (line 1041), so NO later message of the
same delivery is processed. -/
def webhookLoop (envs : Nat → TurnEnv) :
    Nat → StateMap → List InboundMessage → StateMap × List Effect
  | _, conv, [] => (conv, [])
  | k, conv, m :: rest =>
    let text := messageText m.content
    if text = "" then webhookLoop envs k conv rest
    else
      let out := process_incoming_message (envs k) (stLookup conv m.from_phone)
                   m.from_phone text m.msg_id
      let conv2 := stSet conv m.from_phone out.state
      match out.result with
      | .error _ => (conv2, Effect.markAsRead m.msg_id :: out.effects)
      | .ok reply =>
        let tail := webhookLoop envs (k + 1) conv2 rest
        (tail.1, Effect.markAsRead m.msg_id :: out.effects ++
                 [Effect.sendText m.from_phone reply] ++ tail.2)

/-- A delivery's outcome: the acknowledgement status, the state map and
the calls made.  Note line 1039: `send_whatsapp_text(from_phone,
response_text)` runs unconditionally, so a turn that returned `None`
still causes a text-send call with a `None` body. -/
structure WebhookOut where
  statusCode : Nat
  convMap : StateMap
  effects : List Effect
deriving Repr

/-- The POST handler.  `data` mirrors `entry[*].changes[*].value.messages`;
the answer is 200 whether or not processing aborted. -/
def webhook (envs : Nat → TurnEnv) (conv0 : StateMap)
    (data : List (List (List InboundMessage))) : WebhookOut :=
  let r := webhookLoop envs 0 conv0 (data.map (·.flatten)).flatten
  { statusCode := 200, convMap := r.1, effects := r.2 }

/-! ## Booking-ledger poller (`check_new_bookings`, lines 166-240)

Rows come from `sheet.get_all_records()`; a row with an empty/missing
`Status` is new.  On send success the row index is computed
(`all_records.index(record) + 2`) and `Confirmed` written; on failure the
source writes through `row_num`, a variable only the success path binds —
unbound on a first-row failure (`NameError`), stale otherwise. -/

/-- One sheet row (`None` for a missing cell, `""` for an empty one). -/
structure SheetRow where
  status : Option String := none
  phone : Option String := none
  name : Option String := none
  preferredDate : Option String := none
  preferredTime : Option String := none
  unitType : Option String := none
  budget : Option String := none
deriving Repr, DecidableEq

/-- Python truthiness of an optional cell value. -/
def cellTruthy : Option String → Bool
  | none => false
  | some s => s ≠ ""

/-- `f"{x}"` for a value that may be missing (`None` prints as `None`). -/
def pyShow : Option String → String
  | none => "None"
  | some s => s

/-- Line 196: `re.sub(r'[^0-9+]', '', phone)`. -/
def keepDigitsPlus (s : String) : String :=
  String.mk (s.data.filter fun c => isDigitCh c || c = '+')

/-- Python `phone.startswith('+')`. -/
def startsWithPlus (s : String) : Bool :=
  match s.data with
  | '+' :: _ => true
  | _ => false

/-- Lines 194-199: normalise the row's phone. -/
def formatRowPhone (phone : Option String) : Option String :=
  match phone with
  | none => none
  | some p =>
    if p ≠ "" then
      let p := keepDigitsPlus p
      if p.data.length = 10 && !(startsWithPlus p) then some ("+91" ++ p)
      else some p
    else some p

/-- The confirmation template of lines 203-225. -/
def confirmationMessage (name date time unit budget : String) : String :=
  "ğŸ‰ *Site Visit Booking Confirmed!*\n\nDear " ++ name ++
  ",\n\nThank you for booking a site visit at Brookstone. Your appointment details:\n\nğŸ“… Date: " ++
  date ++ "\nâ° Time: " ++ time ++ "\nğŸ\u00A0 Unit Interest: " ++ unit ++
  "\nğŸ’° Budget Range: " ++ budget ++
  "\n\nğŸ“ *Location:*\nBrookstone Show Flat\nB/S, Vaikunth Bungalows, Next to Oxygen Park\nDPS-Bopal Road, Shilaj, Ahmedabad - 380059\n\nOur team will be ready to welcome you! Please carry a valid ID proof.\n\nNeed to reschedule? Contact us at: +91 1234567890\n\nLooking forward to showing you your future home! ğŸŒŸ\n\n_Note: You'll receive a reminder message 1 day before your visit._"

/-- The poller's environment: whether credentials resolve, the `Status`
column index `sheet.find('Status').col` reports, and the transport's
answer to the k-th `send_whatsapp_text` of this poll. -/
structure PollEnv where
  credsOk : Bool
  statusCol : Nat
  sendOk : Nat → Bool

/-- The first index of an equal record (`all_records.index(record)`) —
the FIRST equal row, as Python's `list.index` finds it. -/
def indexOfRow : List SheetRow → SheetRow → Nat
  | [], _ => 0
  | r :: t, x => if r = x then 0 else indexOfRow t x + 1

/-- The `for record in all_records` body.  `sendCount` numbers the sends;
`row_num` is the Python local of that name: `none` until the success path
of some earlier iteration binds it.  An exception (the `NameError` of line
234) stops the loop; the surrounding `except` turns it into `False`. -/
def pollLoop (env : PollEnv) (all_records : List SheetRow) :
    List SheetRow → Nat → Option Nat → (Bool × List Effect)
  | [], _, _ => (true, [])
  | record :: rest, sendCount, row_num =>
    if !(cellTruthy record.status) then
      let phone := formatRowPhone record.phone
      if cellTruthy phone && cellTruthy record.name &&
         cellTruthy record.preferredDate && cellTruthy record.preferredTime then
        let p := pyShow phone
        let message := confirmationMessage (pyShow record.name)
          (pyShow record.preferredDate) (pyShow record.preferredTime)
          (pyShow record.unitType) (pyShow record.budget)
        let sendEff := Effect.sendText p (some message)
        if env.sendOk sendCount then
          let rn := indexOfRow all_records record + 2
          let eff := Effect.updateCell rn env.statusCol "Confirmed"
          let tail := pollLoop env all_records rest (sendCount + 1) (some rn)
          (tail.1, sendEff :: eff :: tail.2)
        else
          match row_num with
          | none => (false, [sendEff])  -- NameError: row_num was never bound
          | some rn =>
            let eff := Effect.updateCell rn env.statusCol "Pending - WhatsApp Failed"
            let tail := pollLoop env all_records rest (sendCount + 1) row_num
            (tail.1, sendEff :: eff :: tail.2)
      else pollLoop env all_records rest sendCount row_num
    else pollLoop env all_records rest sendCount row_num

/-- `check_new_bookings`: `False` when credentials fail or an exception was
caught, `True` otherwise, plus the calls made. -/
def check_new_bookings (env : PollEnv) (all_records : List SheetRow) :
    Bool × List Effect :=
  if !env.credsOk then (false, [])
  else pollLoop env all_records all_records 0 none

/-! ## Call sequences (for reachability claims) -/

/-- One webhook-driven call to `process_incoming_message`. -/
structure CallSpec where
  env : TurnEnv
  phone : String
  text : String
  mid : String

/-- Run a sequence of calls against the process-wide map, storing each
turn's resulting state (also when the turn raised), as the webhook does. -/
def runCalls : List CallSpec → StateMap → StateMap
  | [], m => m
  | c :: rest, m =>
    runCalls rest (stSet m c.phone
      (process_incoming_message c.env (stLookup m c.phone) c.phone c.text c.mid).state)

/-! ## Concrete scenario data -/

/-- The environment of the concrete scenarios: empty knowledge base, Gemini
key configured, document sends succeeding, both Gemini attempts failing. -/
def demoEnv : TurnEnv :=
  { faq := ⟨[], []⟩, hasGeminiKey := true, docSendOk := true,
    gemAttempts := fun _ => none }

/-- A booking draft paused at the phone-confirmation step: the name step
has run (it writes only `name` and `current_step`), so `phone` is unset. -/
def confirmPhoneBooking : BookingInfo :=
  { current_step := some "confirm_phone", name := some "Krishna" }

/-- A user mid-booking at the `confirm_phone` step. -/
def confirmPhoneState : ConvSt :=
  { freshState "919876543210" with
      lead_capture_mode := some "booking",
      booking_info := confirmPhoneBooking }

/-- A fresh booking draft at the `name` step. -/
def bookingStartInfo : BookingInfo := { current_step := some "name" }

/-- A user at the start of the step-by-step booking flow. -/
def bookingStartState : ConvSt :=
  { freshState "919876543210" with
      lead_capture_mode := some "booking",
      booking_info := bookingStartInfo }

/-- Feed a sequence of messages from the same user, threading the state. -/
def runBookingInputs (inputs : List String) : ConvSt :=
  inputs.foldl
    (fun st msg =>
      (process_incoming_message demoEnv (some st) "919876543210" msg "mid").state)
    bookingStartState

/-- The C1 delivery: one text message asking for the brochure. -/
def c1Delivery : WebhookOut :=
  webhook (fun _ => demoEnv) []
    [[[⟨"919876543210", "wamid.1", .text "can you send the brochure"⟩]]]

/-- The C5 delivery: user A (mid-booking at `confirm_phone`) says "yes"
(which raises, see C4) and user B says "hello" in the same batch. -/
def c5Delivery : WebhookOut :=
  webhook (fun _ => demoEnv)
    [("A", { confirmPhoneState with user_phone := "A" })]
    [[[⟨"A", "idA", .text "yes"⟩, ⟨"B", "idB", .text "hello"⟩]]]

/-- A new (empty-status) sheet row with every needed cell present. -/
def c9Row1 : SheetRow :=
  { status := some "", phone := some "9876543210", name := some "Krishna",
    preferredDate := some "05/11/2025", preferredTime := some "10:00 AM",
    unitType := some "3 BHK", budget := some "1.5 Cr" }

/-- A second new row in the same poll. -/
def c9Row2 : SheetRow :=
  { c9Row1 with phone := some "8765432109", name := some "Mira" }

/-- A poll in which every confirmation send fails. -/
def c9EnvAllFail : PollEnv :=
  { credsOk := true, statusCol := 7, sendOk := fun _ => false }

/-- A poll in which the first send succeeds and the second fails. -/
def c9EnvSecondFails : PollEnv :=
  { credsOk := true, statusCol := 7, sendOk := fun k => k == 0 }

/-- Feed messages from one user in order, threading the state as the
webhook does. -/
def bookingChain (env : TurnEnv) (f mid : String) (st : ConvSt)
    (msgs : List String) : ConvSt :=
  msgs.foldl
    (fun s m => (process_incoming_message env (some s) f m mid).state) st

/-- Two webhook-driven calls for the C10 witness. -/
def c10Calls : List CallSpec :=
  [⟨demoEnv, "A", "hello", "m1"⟩, ⟨demoEnv, "A", "send brochure", "m2"⟩]

/-- The state those two calls leave for user "A": the general question got
the Gemini fallback reply; the brochure turn appended only its inbound
entry and set the confirmation flag. -/
def c10FinalA : ConvSt :=
  { chat_history := [("hello", true), (gemFallbackText, false),
                     ("send brochure", true)],
    lead_capture_mode := none, user_phone := "A", language := "english",
    asked_about_brochure := true, booking_info := {} }

/-! ## Lemmas and claim theorems -/

/-! ### Shape of the captured amount group -/

lemma all_takeWhile (p : Char → Bool) (l : List Char) :
    (l.takeWhile p).all p = true := by
  induction l with
  | nil => rfl
  | cons c t ih =>
    by_cases h : p c <;> simp [List.takeWhile_cons, h, ih]

lemma takeWhile_eq_self_of_all (p : Char → Bool) (l : List Char)
    (h : l.all p = true) : l.takeWhile p = l := by
  induction l with
  | nil => rfl
  | cons c t ih =>
    simp only [List.all_cons, Bool.and_eq_true] at h
    simp [List.takeWhile_cons, h.1, ih h.2]

lemma takeWhile_append_dot (ds fs : List Char) (h : ds.all isDigitCh = true) :
    (ds ++ '.' :: fs).takeWhile isDigitCh = ds := by
  induction ds with
  | nil => rfl
  | cons c t ih =>
    simp only [List.all_cons, Bool.and_eq_true] at h
    simp [List.takeWhile_cons, h.1, ih h.2]

lemma isFloatLit_digits (ds : List Char) (h : ds ≠ [])
    (hall : ds.all isDigitCh = true) : isFloatLit (String.mk ds) = true := by
  unfold isFloatLit
  simp only [takeWhile_eq_self_of_all _ _ hall]
  simp [h]

lemma isFloatLit_digits_dot (ds fs : List Char) (h : ds ≠ [])
    (hall : ds.all isDigitCh = true) (hfs : fs.all isDigitCh = true) :
    isFloatLit (String.mk (ds ++ '.' :: fs)) = true := by
  unfold isFloatLit
  simp only [takeWhile_append_dot _ _ hall]
  simp [h, List.drop_left, hfs]

/-- Every group captured by `\d+\.?\d*` is a decimal literal `float()` accepts. -/
lemma amountHere_floatLit (cs : List Char) (g r : List Char)
    (h : amountHere cs = some (g, r)) : isFloatLit (String.mk g) = true := by
  unfold amountHere at h
  set ds := cs.takeWhile isDigitCh with hds
  have hall : ds.all isDigitCh = true := hds ▸ all_takeWhile _ _
  by_cases hemp : ds.isEmpty
  · simp [hemp] at h
  · simp only [hemp, Bool.false_eq_true, if_false] at h
    simp only [List.isEmpty_iff] at hemp
    split at h
    · simp only [Option.some.injEq, Prod.mk.injEq] at h
      exact h.1 ▸ isFloatLit_digits_dot _ _ hemp hall (all_takeWhile _ _)
    · simp only [Option.some.injEq, Prod.mk.injEq] at h
      exact h.1 ▸ isFloatLit_digits _ hemp hall

lemma searchAmountUnit_floatLit (u : List Char) :
    ∀ cs g, searchAmountUnit u cs = some g → isFloatLit (String.mk g) = true := by
  intro cs
  induction cs with
  | nil => intro g h; simp [searchAmountUnit] at h
  | cons c rest ih =>
    intro g h
    unfold searchAmountUnit at h
    rcases hA : amountHere (c :: rest) with _ | ⟨g', after⟩ <;> rw [hA] at h
    · exact ih g h
    · by_cases hu : listStartsWith (after.dropWhile isPySpace) u
      · simp only [hu, if_true, Option.some.injEq] at h
        exact h ▸ amountHere_floatLit _ _ _ hA
      · simp only [hu, Bool.false_eq_true, if_false] at h
        exact ih g h

lemma searchAmountUnit_shape (u : List Char) (tl : List Char) :
    searchAmountUnit u tl = none ∨
    ∃ g, searchAmountUnit u tl = some g ∧ isFloatLit (String.mk g) = true := by
  rcases h : searchAmountUnit u tl with _ | g
  · exact Or.inl rfl
  · exact Or.inr ⟨g, rfl, searchAmountUnit_floatLit u tl g h⟩

lemma searchRupeeAmountUnit_floatLit (u : List Char) :
    ∀ cs g, searchRupeeAmountUnit u cs = some g → isFloatLit (String.mk g) = true := by
  intro cs
  induction cs with
  | nil => intro g h; simp [searchRupeeAmountUnit] at h
  | cons c rest ih =>
    intro g h
    unfold searchRupeeAmountUnit at h
    by_cases hs : listStartsWith (c :: rest) rupeeLit
    · simp only [hs, if_true] at h
      rcases hA : amountHere (((c :: rest).drop rupeeLit.length).dropWhile isPySpace)
          with _ | ⟨g', after⟩ <;> rw [hA] at h
      · exact ih g h
      · by_cases hu : listStartsWith (after.dropWhile isPySpace) u
        · simp only [hu, if_true, Option.orElse, Option.some.injEq] at h
          exact h ▸ amountHere_floatLit _ _ _ hA
        · simp only [hu, Bool.false_eq_true, if_false, Option.orElse] at h
          exact ih g h
    · simp only [hs, Bool.false_eq_true, if_false, Option.orElse] at h
      exact ih g h

/-! ### Dictionary lemmas -/

lemma dictLookup_dictSet (d : PyDict) (key : String) (v : PyVal) (k : String) :
    dictLookup (dictSet d key v) k =
      if key = k then some v else dictLookup d k := by
  induction d with
  | nil => simp [dictSet, dictLookup]
  | cons p t ih =>
    obtain ⟨k', v'⟩ := p
    by_cases h1 : k' = key
    · subst h1
      by_cases h2 : k' = k <;> simp [dictSet, dictLookup, h2]
    · by_cases h2 : k' = k
      · subst h2
        have : ¬key = k' := fun h => h1 h.symm
        simp [dictSet, dictLookup, h1, this]
      · simp [dictSet, dictLookup, h1, h2, ih]

lemma dictHas_dictSet (d : PyDict) (key : String) (v : PyVal) (k : String) :
    dictHas (dictSet d key v) k = (k == key || dictHas d k) := by
  by_cases h : key = k
  · subst h; simp [dictHas, dictLookup_dictSet]
  · have h' : ¬k = key := fun h'' => h h''.symm
    simp [dictHas, dictLookup_dictSet, h, h']

lemma dictHas_applyUpdates (us : List (String × PyVal)) (d : PyDict)
    (k : String) (h : dictHas d k = true) :
    dictHas (applyUpdates d us) k = true := by
  induction us generalizing d with
  | nil => exact h
  | cons u t ih =>
    simp only [applyUpdates, List.foldl_cons]
    exact ih _ (by simp [dictHas_dictSet, h])

lemma dictHas_broadenAux (ld : PyDict) (k : String) :
    ∀ (secs : List String) (d : PyDict),
      dictHas (secs.foldl (fun d s =>
        match dictLookup ld s with
        | some v => dictSet d s v
        | none => d) d) k =
      (dictHas d k || (secs.contains k && dictHas ld k)) := by
  intro secs
  induction secs with
  | nil => intro d; simp
  | cons s t ih =>
    intro d
    simp only [List.foldl_cons, ih]
    rcases h : dictLookup ld s with _ | v <;>
      by_cases hk : k = s
    · subst hk
      simp [List.contains_cons, dictHas, h]
    · simp [List.contains_cons, hk]
    · subst hk
      have : dictHas ld k = true := by simp [dictHas, h]
      simp [dictHas_dictSet, List.contains_cons, this]
    · have hf : (k == s) = false := by simp [hk]
      simp [dictHas_dictSet, List.contains_cons, hf, hk]

/-- The characterization of the fallback broadening: the result has a key
exactly when the accumulated dict had it or it is one of the six fixed
sections and the tree has it. -/
lemma dictHas_broadenFallback (ld d : PyDict) (k : String) :
    dictHas (broadenFallback ld d) k =
      (dictHas d k || (fallbackSections.contains k && dictHas ld k)) :=
  dictHas_broadenAux ld k fallbackSections d

lemma relevantInit_has_project_info (ld : PyDict)
    (h : dictHas ld "project_info" = true) :
    dictHas (relevantInit ld) "project_info" = true := by
  unfold relevantInit
  rcases hl : dictLookup ld "project_info" with _ | v
  · simp [dictHas, hl] at h
  · simp [dictSet, dictHas, dictLookup]

lemma extractTopicsPhase_mono (q : String) (faq : FaqData) (lang : String)
    (d' : PyDict) (h : extractTopicsPhase q faq lang = .ok d') (k : String)
    (hk : dictHas (relevantInit (faqGet faq lang)) k = true) :
    dictHas d' k = true := by
  unfold extractTopicsPhase at h
  simp only [bind, Except.bind] at h
  split at h
  · exact absurd h (by simp)
  split at h
  · exact absurd h (by simp)
  split at h
  · exact absurd h (by simp)
  split at h
  · exact absurd h (by simp)
  simp only [pure, Except.pure, Except.ok.injEq] at h
  subst h
  repeat first | exact hk | apply dictHas_applyUpdates

/-- C7: for every input matched by one of the ordered currency patterns,
`extract_budget_from_text` returns a string ending in exactly `" Cr"` or
`" Lakh"`; the captured group always has the decimal shape `float()` accepts,
so the numeric conversion cannot fail; every non-matching input returns
nothing (the `none` alternative below); and the two scenario inputs give
`"1.5 Cr"` and `"150.0 Lakh"`. -/
theorem C7_extract_budget_normal_form :
    (∀ text : String,
        extract_budget_from_text text = none ∨
        ∃ p, extract_budget_from_text text = some (p ++ " Cr") ∨
             extract_budget_from_text text = some (p ++ " Lakh")) ∧
    (∀ text : String,
        extract_budget_from_text text = none ↔
          searchAmountUnit "cr".data (asciiLower text).data = none ∧
          searchAmountUnit "lakh".data (asciiLower text).data = none ∧
          searchRupeeAmountUnit "cr".data (asciiLower text).data = none ∧
          searchRupeeAmountUnit "lakh".data (asciiLower text).data = none) ∧
    (∀ text g, searchAmountUnit "cr".data (asciiLower text).data = some g →
        isFloatLit (String.mk g) = true) ∧
    (∀ text g, searchAmountUnit "lakh".data (asciiLower text).data = some g →
        isFloatLit (String.mk g) = true) ∧
    (∀ text g, searchRupeeAmountUnit "cr".data (asciiLower text).data = some g →
        isFloatLit (String.mk g) = true) ∧
    (∀ text g, searchRupeeAmountUnit "lakh".data (asciiLower text).data = some g →
        isFloatLit (String.mk g) = true) ∧
    extract_budget_from_text "around 1.5 cr for a flat" = some "1.5 Cr" ∧
    extract_budget_from_text "150 lakhs works" = some "150.0 Lakh" := by
  refine ⟨?_, ?_, fun _ g h => searchAmountUnit_floatLit _ _ g h,
          fun _ g h => searchAmountUnit_floatLit _ _ g h,
          fun _ g h => searchRupeeAmountUnit_floatLit _ _ g h,
          fun _ g h => searchRupeeAmountUnit_floatLit _ _ g h, by decide, by decide⟩ <;>
    intro text <;>
    unfold extract_budget_from_text <;>
    rcases h1 : searchAmountUnit "cr".data (asciiLower text).data with _ | g1 <;>
      simp only [h1] <;>
    try rcases h2 : searchAmountUnit "lakh".data (asciiLower text).data with _ | g2 <;>
      simp only [h2] <;>
    try rcases h3 : searchRupeeAmountUnit "cr".data (asciiLower text).data with _ | g3 <;>
      simp only [h3] <;>
    try rcases h4 : searchRupeeAmountUnit "lakh".data (asciiLower text).data with _ | g4 <;>
      simp only [h4]
  case _ => exact Or.inl trivial
  case _ => exact Or.inr ⟨pyFloatRepr (String.mk g4), Or.inr rfl⟩
  case _ => exact Or.inr ⟨pyFloatRepr (String.mk g3), Or.inl rfl⟩
  case _ => exact Or.inr ⟨pyFloatRepr (String.mk g2), Or.inr rfl⟩
  case _ => exact Or.inr ⟨pyFloatRepr (String.mk g1), Or.inl rfl⟩
  all_goals simp

/-- C6: with the API key configured the wrapper makes at most two attempts;
its event trace is exactly `[attempt 0]` on first-attempt success and
`[attempt 0, sleep 2, attempt 1]` otherwise, so the fixed 2-second delay
happens only before the second attempt; when neither attempt yields a
successful response the returned text is exactly the fixed apology, which
names the fallback number +91 1234567890.  `call_gemini_api` is a total
function, so no error propagates to the caller. -/
theorem C6_gemini_retry_contract (attempts : Nat → GemAttempt)
    (prompt language : String) :
    attemptCount (call_gemini_api true attempts prompt language).2 ≤ 2 ∧
    ((call_gemini_api true attempts prompt language).2 =
      if (gemAttemptText (attempts 0)).isSome then [.attempt 0]
      else [.attempt 0, .sleepSec 2, .attempt 1]) ∧
    (gemAttemptText (attempts 0) = none → gemAttemptText (attempts 1) = none →
      (call_gemini_api true attempts prompt language).1 = gemFallbackText) ∧
    pyIn "+91 1234567890" gemFallbackText = true := by
  rcases h0 : gemAttemptText (attempts 0) with _ | t0 <;>
    rcases h1 : gemAttemptText (attempts 1) with _ | t1 <;>
      simp [call_gemini_api, h0, h1, attemptCount] <;> decide

/-- Witness for C6 at a concrete environment in which both attempts raise. -/
theorem C6_gemini_retry_contract_witness :
    (call_gemini_api true (fun _ => none) "prompt" "english").1 = gemFallbackText :=
  (C6_gemini_retry_contract (fun _ => none) "prompt" "english").2.2.1 rfl rfl

/-- A small demo knowledge base for the C8 witness. -/
def c8Faq : FaqData :=
  { english := [("project_info", .pstr "Brookstone")], gujarati := [] }

/-- C8: for every question, knowledge base and language, (i) the result of
`extract_relevant_data` contains `project_info` whenever the selected
language tree has it; (ii) whenever the accumulated dict holds at most two
entries after all topic checks, the result is exactly the fallback
broadening of it; and (iii) the broadening adds exactly the fixed fallback
sections that exist in the tree (and nothing else).  The embedding is a
pure function of its three arguments, so the knowledge base is never
mutated — as in the source, which only reads `lang_data`. -/
theorem C8_relevance_filter (q : String) (faq : FaqData) (lang : String) :
    (∀ d', extract_relevant_data q faq lang = .ok d' →
        dictHas (faqGet faq lang) "project_info" = true →
        dictHas d' "project_info" = true) ∧
    (∀ d, extractTopicsPhase q faq lang = .ok d → d.length ≤ 2 →
        extract_relevant_data q faq lang =
          .ok (broadenFallback (faqGet faq lang) d)) ∧
    (∀ d k, dictHas (broadenFallback (faqGet faq lang) d) k =
        (dictHas d k ||
          (fallbackSections.contains k && dictHas (faqGet faq lang) k))) := by
  refine ⟨?_, ?_, fun d k => dictHas_broadenFallback _ d k⟩
  · intro d' h hp
    unfold extract_relevant_data at h
    simp only [bind, Except.bind] at h
    rcases ht : extractTopicsPhase q faq lang with e | d <;> rw [ht] at h
    · exact absurd h (by simp)
    · simp only [pure, Except.pure, Except.ok.injEq] at h
      subst h
      have hd : dictHas d "project_info" = true :=
        extractTopicsPhase_mono q faq lang d ht _
          (relevantInit_has_project_info _ hp)
      by_cases hl : d.length ≤ 2
      · simp only [hl, if_true, dictHas_broadenFallback, hd, Bool.true_or]
      · simp only [hl, if_false, hd]
  · intro d h hlen
    unfold extract_relevant_data
    simp only [bind, Except.bind]
    rw [h]
    simp [pure, Except.pure, hlen]

/-- Witness for C8 at a concrete question and a one-section tree. -/
theorem C8_relevance_filter_witness :
    dictHas [("project_info", PyVal.pstr "Brookstone")] "project_info" = true ∧
    extract_relevant_data "hello" c8Faq "english" =
      .ok (broadenFallback (faqGet c8Faq "english")
            [("project_info", PyVal.pstr "Brookstone")]) :=
  ⟨(C8_relevance_filter "hello" c8Faq "english").1
      [("project_info", PyVal.pstr "Brookstone")] rfl rfl,
   (C8_relevance_filter "hello" c8Faq "english").2.1
      [("project_info", PyVal.pstr "Brookstone")] rfl (by decide)⟩

/-! ### Router lemmas -/

lemma defaultTurn_fields (env : TurnEnv) (m : String) (st : ConvSt) :
    (defaultTurn env m st).state.lead_capture_mode = st.lead_capture_mode ∧
    (defaultTurn env m st).branch = .generalQuestion := by
  unfold defaultTurn
  rcases h : create_gemini_prompt m env.faq st.language st.chat_history with e | p <;>
    simp [h, appendBot]

lemma restOfTurn_mode_none (env : TurnEnv) (f m u : String) (st : ConvSt)
    (h : st.lead_capture_mode = none) :
    (restOfTurn env f m u st).state.lead_capture_mode = none ∧
    (restOfTurn env f m u st).branch ≠ .phoneForBrochure ∧
    (restOfTurn env f m u st).branch ≠ .bookingStep := by
  unfold restOfTurn
  by_cases h1 : anyIn contact_patterns u
  · simp [h1, appendBot, h]
  · by_cases h2 : anyIn (booking_keywords_english ++ booking_keywords_gujarati) u
    · simp [h1, h2, appendBot, h]
    · have hd := defaultTurn_fields env m st
      simp [h1, h2, h, hd.1, hd.2]

/-- A turn from a user in `booking` mode whose message avoids the earlier
branches' keywords (and whose brochure flag is down) reaches the booking
dispatch, applied to the state with language re-detected and the inbound
message appended. -/
lemma route_booking (env : TurnEnv) (f m mid : String) (st : ConvSt)
    (hmode : st.lead_capture_mode = some "booking")
    (hask : st.asked_about_brochure = false)
    (hb : anyIn brochure_keywords (pyStrip (asciiLower m)) = false)
    (hc : anyIn contact_patterns (pyStrip (asciiLower m)) = false)
    (hk : anyIn (booking_keywords_english ++ booking_keywords_gujarati)
        (pyStrip (asciiLower m)) = false) :
    process_incoming_message env (some st) f m mid =
      bookingTurn env f m (pyStrip (asciiLower m))
        { st with language := detect_language m,
                  chat_history := st.chat_history ++ [(m, true)] } := by
  unfold process_incoming_message restOfTurn
  simp [hmode, hask, hb, hc, hk]

lemma bookingTurn_name_eq (env : TurnEnv) (f m u : String) (st : ConvSt)
    (hstep : st.booking_info.current_step = some "name") :
    bookingTurn env f m u st =
      { result := .ok (some (nameStepReply m f)),
        state := appendBot { st with booking_info :=
          { st.booking_info with name := some m,
                                 current_step := some "confirm_phone" } }
          (nameStepReply m f),
        effects := [], branch := .bookingStep } := by
  unfold bookingTurn
  simp only [hstep]

lemma bookingTurn_confirm_number_eq (env : TurnEnv) (f m u : String)
    (st : ConvSt) (p : String)
    (hstep : st.booking_info.current_step = some "confirm_phone")
    (hyes : u ≠ "yes") (h1 : u ≠ "1") (hp : phoneSearch m = some p) :
    bookingTurn env f m u st =
      { result := .ok (some datePromptReply),
        state := appendBot { st with booking_info :=
          { st.booking_info with phone := some (removeCh '-' (removeCh ' ' p)),
                                 current_step := some "date" } }
          datePromptReply,
        effects := [], branch := .bookingStep } := by
  unfold bookingTurn
  simp only [hstep, hyes, h1, hp]
  simp

lemma bookingTurn_confirm_invalid_eq (env : TurnEnv) (f m u : String)
    (st : ConvSt)
    (hstep : st.booking_info.current_step = some "confirm_phone")
    (hyes : u ≠ "yes") (h1 : u ≠ "1") (hp : phoneSearch m = none) :
    bookingTurn env f m u st =
      { result := .ok (some confirmPhoneRepromptReply),
        state := appendBot st confirmPhoneRepromptReply,
        effects := [], branch := .bookingStep } := by
  unfold bookingTurn
  simp only [hstep, hyes, h1, hp]
  simp

lemma bookingTurn_date_valid_eq (env : TurnEnv) (f m u : String) (st : ConvSt)
    (hstep : st.booking_info.current_step = some "date")
    (hd : date_match_head m = true) :
    bookingTurn env f m u st =
      { result := .ok (some timePromptReply),
        state := appendBot { st with booking_info :=
          { st.booking_info with date := some m,
                                 current_step := some "time" } }
          timePromptReply,
        effects := [], branch := .bookingStep } := by
  unfold bookingTurn
  simp only [hstep, hd, if_true]

lemma bookingTurn_date_invalid_eq (env : TurnEnv) (f m u : String) (st : ConvSt)
    (hstep : st.booking_info.current_step = some "date")
    (hd : date_match_head m = false) :
    bookingTurn env f m u st =
      { result := .ok (some dateRepromptReply),
        state := appendBot st dateRepromptReply,
        effects := [], branch := .bookingStep } := by
  unfold bookingTurn
  simp only [hstep, hd, Bool.false_eq_true, if_false]

lemma bookingTurn_time_eq (env : TurnEnv) (f m u : String) (st : ConvSt)
    (hstep : st.booking_info.current_step = some "time") :
    bookingTurn env f m u st =
      { result := .ok (some unitPromptReply),
        state := appendBot { st with booking_info :=
          { st.booking_info with time := some ((time_slots.lookup m).getD m),
                                 current_step := some "unit_type" } }
          unitPromptReply,
        effects := [], branch := .bookingStep } := by
  unfold bookingTurn
  simp only [hstep]

lemma bookingTurn_unit_valid_eq (env : TurnEnv) (f m u : String) (st : ConvSt)
    (hstep : st.booking_info.current_step = some "unit_type")
    (hu : m = "1" ∨ m = "2" ∨ m = "3") :
    bookingTurn env f m u st =
      { result := .ok (some budgetPromptReply),
        state := appendBot { st with booking_info :=
          { st.booking_info with
              unit_type := some ((unit_types.lookup m).getD ""),
              current_step := some "budget" } }
          budgetPromptReply,
        effects := [], branch := .bookingStep } := by
  unfold bookingTurn
  rcases hu with h | h | h <;> subst h <;> simp only [hstep] <;> simp

lemma bookingTurn_unit_invalid_eq (env : TurnEnv) (f m u : String) (st : ConvSt)
    (hstep : st.booking_info.current_step = some "unit_type")
    (h1 : m ≠ "1") (h2 : m ≠ "2") (h3 : m ≠ "3") :
    bookingTurn env f m u st =
      { result := .ok (some unitRepromptReply),
        state := appendBot st unitRepromptReply,
        effects := [], branch := .bookingStep } := by
  unfold bookingTurn
  simp only [hstep, h1, h2, h3]
  simp

lemma bookingTurn_budget_valid_eq (env : TurnEnv) (f m u : String)
    (st : ConvSt) (b : String)
    (hstep : st.booking_info.current_step = some "budget")
    (hb : extract_budget_from_text m = some b) :
    bookingTurn env f m u st =
      { result := .ok (some bookingCompleteReply),
        state := appendBot { st with
          booking_info := { st.booking_info with budget := some b },
          lead_capture_mode := none, asked_about_brochure := true }
          bookingCompleteReply,
        effects := [], branch := .bookingStep } := by
  unfold bookingTurn
  simp only [hstep, hb]

lemma bookingTurn_budget_invalid_eq (env : TurnEnv) (f m u : String)
    (st : ConvSt)
    (hstep : st.booking_info.current_step = some "budget")
    (hb : extract_budget_from_text m = none) :
    bookingTurn env f m u st =
      { result := .ok (some budgetRepromptReply),
        state := appendBot st budgetRepromptReply,
        effects := [], branch := .bookingStep } := by
  unfold bookingTurn
  simp only [hstep, hb]

/-- The mode, flag and cursor facts a valid `name`-step turn leaves. -/
lemma booking_name_step_facts (env : TurnEnv) (f n mid : String) (st : ConvSt)
    (hmode : st.lead_capture_mode = some "booking")
    (hask : st.asked_about_brochure = false)
    (hb : anyIn brochure_keywords (pyStrip (asciiLower n)) = false)
    (hc : anyIn contact_patterns (pyStrip (asciiLower n)) = false)
    (hk : anyIn (booking_keywords_english ++ booking_keywords_gujarati)
        (pyStrip (asciiLower n)) = false)
    (hstep : st.booking_info.current_step = some "name") :
    (process_incoming_message env (some st) f n mid).state.lead_capture_mode =
      some "booking" ∧
    (process_incoming_message env (some st) f n mid).state.asked_about_brochure =
      false ∧
    (process_incoming_message env (some st) f n mid).state.booking_info.current_step =
      some "confirm_phone" := by
  rw [route_booking env f n mid st hmode hask hb hc hk,
      bookingTurn_name_eq _ _ _ _ _ (by simpa using hstep)]
  simp [appendBot, hmode, hask]

/-- The facts a valid new-number `confirm_phone` turn leaves. -/
lemma booking_confirm_step_facts (env : TurnEnv) (f m mid : String)
    (st : ConvSt) (p : String)
    (hmode : st.lead_capture_mode = some "booking")
    (hask : st.asked_about_brochure = false)
    (hb : anyIn brochure_keywords (pyStrip (asciiLower m)) = false)
    (hc : anyIn contact_patterns (pyStrip (asciiLower m)) = false)
    (hk : anyIn (booking_keywords_english ++ booking_keywords_gujarati)
        (pyStrip (asciiLower m)) = false)
    (hstep : st.booking_info.current_step = some "confirm_phone")
    (hyes : pyStrip (asciiLower m) ≠ "yes") (h1 : pyStrip (asciiLower m) ≠ "1")
    (hp : phoneSearch m = some p) :
    (process_incoming_message env (some st) f m mid).state.lead_capture_mode =
      some "booking" ∧
    (process_incoming_message env (some st) f m mid).state.asked_about_brochure =
      false ∧
    (process_incoming_message env (some st) f m mid).state.booking_info.current_step =
      some "date" := by
  rw [route_booking env f m mid st hmode hask hb hc hk,
      bookingTurn_confirm_number_eq _ _ _ _ _ p (by simpa using hstep) hyes h1 hp]
  simp [appendBot, hmode, hask]

/-- The facts a valid `date` turn leaves. -/
lemma booking_date_step_facts (env : TurnEnv) (f m mid : String) (st : ConvSt)
    (hmode : st.lead_capture_mode = some "booking")
    (hask : st.asked_about_brochure = false)
    (hb : anyIn brochure_keywords (pyStrip (asciiLower m)) = false)
    (hc : anyIn contact_patterns (pyStrip (asciiLower m)) = false)
    (hk : anyIn (booking_keywords_english ++ booking_keywords_gujarati)
        (pyStrip (asciiLower m)) = false)
    (hstep : st.booking_info.current_step = some "date")
    (hd : date_match_head m = true) :
    (process_incoming_message env (some st) f m mid).state.lead_capture_mode =
      some "booking" ∧
    (process_incoming_message env (some st) f m mid).state.asked_about_brochure =
      false ∧
    (process_incoming_message env (some st) f m mid).state.booking_info.current_step =
      some "time" := by
  rw [route_booking env f m mid st hmode hask hb hc hk,
      bookingTurn_date_valid_eq _ _ _ _ _ (by simpa using hstep) hd]
  simp [appendBot, hmode, hask]

/-- The facts a `time` turn (every input is accepted there) leaves. -/
lemma booking_time_step_facts (env : TurnEnv) (f m mid : String) (st : ConvSt)
    (hmode : st.lead_capture_mode = some "booking")
    (hask : st.asked_about_brochure = false)
    (hb : anyIn brochure_keywords (pyStrip (asciiLower m)) = false)
    (hc : anyIn contact_patterns (pyStrip (asciiLower m)) = false)
    (hk : anyIn (booking_keywords_english ++ booking_keywords_gujarati)
        (pyStrip (asciiLower m)) = false)
    (hstep : st.booking_info.current_step = some "time") :
    (process_incoming_message env (some st) f m mid).state.lead_capture_mode =
      some "booking" ∧
    (process_incoming_message env (some st) f m mid).state.asked_about_brochure =
      false ∧
    (process_incoming_message env (some st) f m mid).state.booking_info.current_step =
      some "unit_type" := by
  rw [route_booking env f m mid st hmode hask hb hc hk,
      bookingTurn_time_eq _ _ _ _ _ (by simpa using hstep)]
  simp [appendBot, hmode, hask]

/-- The facts a valid `unit_type` turn leaves. -/
lemma booking_unit_step_facts (env : TurnEnv) (f m mid : String) (st : ConvSt)
    (hmode : st.lead_capture_mode = some "booking")
    (hask : st.asked_about_brochure = false)
    (hb : anyIn brochure_keywords (pyStrip (asciiLower m)) = false)
    (hc : anyIn contact_patterns (pyStrip (asciiLower m)) = false)
    (hk : anyIn (booking_keywords_english ++ booking_keywords_gujarati)
        (pyStrip (asciiLower m)) = false)
    (hstep : st.booking_info.current_step = some "unit_type")
    (hu : m = "1" ∨ m = "2" ∨ m = "3") :
    (process_incoming_message env (some st) f m mid).state.lead_capture_mode =
      some "booking" ∧
    (process_incoming_message env (some st) f m mid).state.asked_about_brochure =
      false ∧
    (process_incoming_message env (some st) f m mid).state.booking_info.current_step =
      some "budget" := by
  rw [route_booking env f m mid st hmode hask hb hc hk,
      bookingTurn_unit_valid_eq _ _ _ _ _ (by simpa using hstep) hu]
  simp [appendBot, hmode, hask]

/-- The final, valid `budget` turn: capture mode cleared, the brochure
confirmation flag raised, the booking-form-redirect template returned. -/
lemma booking_budget_step_facts (env : TurnEnv) (f m mid : String)
    (st : ConvSt) (b : String)
    (hmode : st.lead_capture_mode = some "booking")
    (hask : st.asked_about_brochure = false)
    (hb : anyIn brochure_keywords (pyStrip (asciiLower m)) = false)
    (hc : anyIn contact_patterns (pyStrip (asciiLower m)) = false)
    (hk : anyIn (booking_keywords_english ++ booking_keywords_gujarati)
        (pyStrip (asciiLower m)) = false)
    (hstep : st.booking_info.current_step = some "budget")
    (hbv : extract_budget_from_text m = some b) :
    (process_incoming_message env (some st) f m mid).result =
      .ok (some bookingCompleteReply) ∧
    (process_incoming_message env (some st) f m mid).state.lead_capture_mode =
      none ∧
    (process_incoming_message env (some st) f m mid).state.asked_about_brochure =
      true := by
  rw [route_booking env f m mid st hmode hask hb hc hk,
      bookingTurn_budget_valid_eq _ _ _ _ _ b (by simpa using hstep) hbv]
  simp [appendBot]

lemma process_mode_none (env : TurnEnv) (existing : Option ConvSt)
    (f m mid : String)
    (h : ∀ st, existing = some st → st.lead_capture_mode = none) :
    (process_incoming_message env existing f m mid).state.lead_capture_mode = none ∧
    (process_incoming_message env existing f m mid).branch ≠ .phoneForBrochure ∧
    (process_incoming_message env existing f m mid).branch ≠ .bookingStep := by
  have h0 : (match existing with
             | some st => st
             | none => freshState f).lead_capture_mode = none := by
    cases existing with
    | none => rfl
    | some st => exact h st rfl
  unfold process_incoming_message
  by_cases hb : anyIn brochure_keywords (pyStrip (asciiLower m))
  · cases hd : env.docSendOk <;> simp [h0, hb, hd, appendBot]
  · cases hask : (match existing with
                  | some st => st
                  | none => freshState f).asked_about_brochure <;>
      by_cases ha : anyIn affirmative_patterns (pyStrip (asciiLower m)) <;>
        cases hd : env.docSendOk <;>
          simp [h0, hb, ha, hask, hd, appendBot, restOfTurn_mode_none]

/-- C1 (code bug): the document-request turn itself behaves as the claim
says — `process_incoming_message` returns nothing and the chat history
gains only the inbound entry — but the claim's "no outbound text message
is sent" conjunct fails at the webhook: line 1039 calls
`send_whatsapp_text(from_phone, response_text)` unconditionally, so the
reply-less turn still issues a text-send transport call with a `None`
body (the trailing `sendText _ none` effect below). -/
theorem C1_document_turn_sends_none_body :
    c1Delivery.statusCode = 200 ∧
    (stLookup c1Delivery.convMap "919876543210").map ConvSt.chat_history =
      some [("can you send the brochure", true)] ∧
    c1Delivery.effects =
      [.markAsRead "wamid.1",
       .sendDocument "919876543210" BROCHURE_MEDIA_ID brochureCaption,
       .sendText "919876543210" none] :=
  ⟨rfl, rfl, rfl⟩

/-- C3 counterexample: from a fresh booking mode at step `name`, the five
consecutive valid inputs name, phone, date, time and unit type leave the
user at the `budget` step with the capture mode still `booking` — five
inputs do not clear the mode as the claim states (a sixth is needed). -/
theorem C3_five_inputs_insufficient :
    (runBookingInputs ["Krishna", "9876543210", "05/11/2025", "2", "1"]).lead_capture_mode =
      some "booking" ∧
    (runBookingInputs ["Krishna", "9876543210", "05/11/2025", "2", "1"]).booking_info.current_step =
      some "budget" :=
  ⟨rfl, rfl⟩

/-- C4 (code bug): at the `confirm_phone` step the literal "yes" (and "1")
takes the branch `phone = booking_info['phone']` (line 821), but no code
path has written `booking_info['phone']` before this step — the name step
writes only `name` and `current_step` — so the turn raises `KeyError`
instead of keeping the sender's number and advancing to `date`. -/
theorem C4_confirm_phone_yes_raises :
    (process_incoming_message demoEnv (some confirmPhoneState)
        "919876543210" "yes" "mid").result = .error (.keyErr "phone") ∧
    (process_incoming_message demoEnv (some confirmPhoneState)
        "919876543210" "1" "mid").result = .error (.keyErr "phone") ∧
    (process_incoming_message demoEnv (some confirmPhoneState)
        "919876543210" "yes" "mid").state.booking_info.current_step =
      some "confirm_phone" :=
  ⟨rfl, rfl, rfl⟩

/-- C5 (code bug): the `try` of the webhook wraps the whole message loop
(lines 1000-1042), so when user A's message raises (the C4 `KeyError`),
the sibling message from B in the same delivery is never marked read,
never processed (no state is even created for B) and never replied to;
only the 200 acknowledgement part of the claim holds. -/
theorem C5_batch_aborts_on_exception :
    c5Delivery.statusCode = 200 ∧
    c5Delivery.effects = [.markAsRead "idA"] ∧
    stLookup c5Delivery.convMap "B" = none :=
  ⟨rfl, rfl, rfl⟩

set_option maxRecDepth 8000 in
/-- C9 (code bug): a poll whose first new row fails its confirmation send
reaches `sheet.update_cell(row_num, ...)` with `row_num` unbound (it is
assigned only in the success path, line 230) — a `NameError` that the
function-level `except` turns into `False`: no failed-send status is
written and the second new row is never processed.  And when an earlier
row's send succeeded, the failure path writes the STALE `row_num`: below,
the second row's failure status lands on row 2 — the first row's cell —
instead of row 3. -/
theorem C9_failed_send_status_never_written :
    check_new_bookings c9EnvAllFail [c9Row1, c9Row2] =
      (false, [.sendText "+919876543210"
        (some (confirmationMessage "Krishna" "05/11/2025" "10:00 AM"
          "3 BHK" "1.5 Cr"))]) ∧
    check_new_bookings c9EnvSecondFails [c9Row1, c9Row2] =
      (true, [.sendText "+919876543210"
        (some (confirmationMessage "Krishna" "05/11/2025" "10:00 AM"
          "3 BHK" "1.5 Cr")),
        .updateCell 2 7 "Confirmed",
        .sendText "+918765432109"
        (some (confirmationMessage "Mira" "05/11/2025" "10:00 AM"
          "3 BHK" "1.5 Cr")),
        .updateCell 2 7 "Pending - WhatsApp Failed"]) :=
  ⟨by decide, by decide⟩

/-- C2: with the sender not held in the awaiting-phone capture mode (the
only check of §4.6 that precedes the document check), every message
containing both a document-request keyword and a booking-intent keyword is
handled by the document branch — a document send is issued to the sender —
and never by the booking-form-redirect branch: the first matching check
(step 3 before step 6) fully determines the turn's outcome. -/
theorem C2_document_branch_precedes_booking
    (env : TurnEnv) (existing : Option ConvSt)
    (from_phone message_text message_id : String)
    (hmode : ∀ st, existing = some st →
        st.lead_capture_mode ≠ some "phone_for_brochure")
    (hdoc : anyIn brochure_keywords (pyStrip (asciiLower message_text)) = true)
    (hbook : anyIn (booking_keywords_english ++ booking_keywords_gujarati)
        (pyStrip (asciiLower message_text)) = true) :
    (process_incoming_message env existing from_phone message_text message_id).branch =
      .brochureRequest ∧
    (process_incoming_message env existing from_phone message_text message_id).branch ≠
      .bookingRedirect ∧
    Effect.sendDocument from_phone BROCHURE_MEDIA_ID brochureCaption ∈
      (process_incoming_message env existing from_phone message_text message_id).effects := by
  have _ := hbook
  have h0 : (match existing with
             | some st => st
             | none => freshState from_phone).lead_capture_mode ≠
               some "phone_for_brochure" := by
    cases existing with
    | none => simp [freshState]
    | some st => exact hmode st rfl
  unfold process_incoming_message
  cases hd : env.docSendOk <;> simp [h0, hdoc, hd]

/-- Witness for C2: a fresh user whose message holds a document keyword
("brochure") and a booking keyword ("book site visit"). -/
theorem C2_document_branch_precedes_booking_witness :
    (process_incoming_message demoEnv none "919876543210"
        "send brochure and book site visit" "mid").branch = .brochureRequest :=
  (C2_document_branch_precedes_booking demoEnv none "919876543210"
      "send brochure and book site visit" "mid"
      (fun _ h => Option.noConfusion h) (by decide) (by decide)).1

lemma stLookup_stSet (m : StateMap) (k : String) (v : ConvSt) (p : String) :
    stLookup (stSet m k v) p = if k = p then some v else stLookup m p := by
  induction m with
  | nil => simp [stSet, stLookup]
  | cons q t ih =>
    obtain ⟨k', v'⟩ := q
    by_cases h1 : k' = k
    · subst h1
      by_cases h2 : k' = p <;> simp [stSet, stLookup, h2]
    · by_cases h2 : k' = p
      · subst h2
        have hkk : ¬k = k' := fun hh => h1 hh.symm
        simp [stSet, stLookup, h1, hkk]
      · simp [stSet, stLookup, h1, h2, ih]

lemma runCalls_mode_none (calls : List CallSpec) :
    ∀ m : StateMap,
      (∀ p st, stLookup m p = some st → st.lead_capture_mode = none) →
      ∀ p st, stLookup (runCalls calls m) p = some st →
        st.lead_capture_mode = none := by
  induction calls with
  | nil => intro m hm; exact hm
  | cons c rest ih =>
    intro m hm
    apply ih
    intro p st hp
    rw [stLookup_stSet] at hp
    by_cases hq : c.phone = p
    · have hst : (process_incoming_message c.env (stLookup m c.phone)
          c.phone c.text c.mid).state = st := by
        simpa [hq] using hp
      exact hst ▸ (process_mode_none c.env (stLookup m c.phone) c.phone c.text
        c.mid (fun st' h' => hm c.phone st' h')).1
    · exact hm p st (by simpa [hq] using hp)

/-- C10: starting from the empty conversation-state map, every state
reachable through any sequence of `process_incoming_message` calls has
`lead_capture_mode = None` — no code path assigns `'phone_for_brochure'`
or `'booking'` — and a turn processed against a `None`-mode (or absent)
state is never handled by the awaiting-phone branch or the step-by-step
booking branch, so both are unreachable from the public entry point. -/
theorem C10_capture_branches_unreachable :
    (∀ (calls : List CallSpec) (p : String) (st : ConvSt),
        stLookup (runCalls calls []) p = some st →
        st.lead_capture_mode = none) ∧
    (∀ (env : TurnEnv) (existing : Option ConvSt) (f m mid : String),
        (∀ st, existing = some st → st.lead_capture_mode = none) →
        (process_incoming_message env existing f m mid).branch ≠ .phoneForBrochure ∧
        (process_incoming_message env existing f m mid).branch ≠ .bookingStep ∧
        (process_incoming_message env existing f m mid).state.lead_capture_mode = none) := by
  constructor
  · intro calls p st h
    exact runCalls_mode_none calls []
      (fun p' st' h' => by simp [stLookup] at h') p st h
  · intro env ex f m mid hex
    have h := process_mode_none env ex f m mid hex
    exact ⟨h.2.1, h.2.2, h.1⟩

/-- Witness for C10: after two concrete calls (a general question and a
brochure request) the one reachable state has no capture mode. -/
theorem C10_capture_branches_unreachable_witness :
    c10FinalA.lead_capture_mode = none :=
  C10_capture_branches_unreachable.1 c10Calls "A" c10FinalA (by decide)

/-- C3 (amended): starting in booking capture mode at step `name`, SIX
consecutive valid inputs — not five — traverse
name→confirm_phone→date→time→unit_type→budget and end with the capture
mode cleared and `asked_about_brochure` set, the final turn returning the
booking-form-redirect template; the confirm_phone input must supply a new
valid number, since the literal yes/1 path raises (see C4).  Each input
must avoid the keywords of the router's earlier branches, which would
otherwise preempt the dispatch (§4.6 precedence).  And a single invalid
input at any validating step (confirm_phone, date, unit_type, budget)
leaves `current_step` unchanged and returns that step's re-prompt with its
format hint. -/
theorem C3_booking_six_valid_inputs
    (env : TurnEnv) (f mid : String) (st0 : ConvSt)
    (nIn pIn dIn tIn uIn bIn pVal bVal : String)
    (hmode : st0.lead_capture_mode = some "booking")
    (hask : st0.asked_about_brochure = false)
    (hstep : st0.booking_info.current_step = some "name")
    (hcln : ∀ m ∈ [nIn, pIn, dIn, tIn, uIn, bIn],
        anyIn brochure_keywords (pyStrip (asciiLower m)) = false ∧
        anyIn contact_patterns (pyStrip (asciiLower m)) = false ∧
        anyIn (booking_keywords_english ++ booking_keywords_gujarati)
          (pyStrip (asciiLower m)) = false)
    (hpyes : pyStrip (asciiLower pIn) ≠ "yes")
    (hp1 : pyStrip (asciiLower pIn) ≠ "1")
    (hp : phoneSearch pIn = some pVal)
    (hd : date_match_head dIn = true)
    (hu : uIn = "1" ∨ uIn = "2" ∨ uIn = "3")
    (hbv : extract_budget_from_text bIn = some bVal) :
    ((bookingChain env f mid st0 [nIn, pIn, dIn, tIn, uIn, bIn]).lead_capture_mode =
        none ∧
     (bookingChain env f mid st0 [nIn, pIn, dIn, tIn, uIn, bIn]).asked_about_brochure =
        true ∧
     (process_incoming_message env
        (some (bookingChain env f mid st0 [nIn, pIn, dIn, tIn, uIn]))
        f bIn mid).result = .ok (some bookingCompleteReply)) ∧
    (∀ (st : ConvSt) (m : String),
        st.lead_capture_mode = some "booking" →
        st.asked_about_brochure = false →
        anyIn brochure_keywords (pyStrip (asciiLower m)) = false →
        anyIn contact_patterns (pyStrip (asciiLower m)) = false →
        anyIn (booking_keywords_english ++ booking_keywords_gujarati)
          (pyStrip (asciiLower m)) = false →
        st.booking_info.current_step = some "confirm_phone" →
        pyStrip (asciiLower m) ≠ "yes" → pyStrip (asciiLower m) ≠ "1" →
        phoneSearch m = none →
        (process_incoming_message env (some st) f m mid).result =
          .ok (some confirmPhoneRepromptReply) ∧
        (process_incoming_message env (some st) f m mid).state.booking_info.current_step =
          some "confirm_phone") ∧
    (∀ (st : ConvSt) (m : String),
        st.lead_capture_mode = some "booking" →
        st.asked_about_brochure = false →
        anyIn brochure_keywords (pyStrip (asciiLower m)) = false →
        anyIn contact_patterns (pyStrip (asciiLower m)) = false →
        anyIn (booking_keywords_english ++ booking_keywords_gujarati)
          (pyStrip (asciiLower m)) = false →
        st.booking_info.current_step = some "date" →
        date_match_head m = false →
        (process_incoming_message env (some st) f m mid).result =
          .ok (some dateRepromptReply) ∧
        (process_incoming_message env (some st) f m mid).state.booking_info.current_step =
          some "date") ∧
    (∀ (st : ConvSt) (m : String),
        st.lead_capture_mode = some "booking" →
        st.asked_about_brochure = false →
        anyIn brochure_keywords (pyStrip (asciiLower m)) = false →
        anyIn contact_patterns (pyStrip (asciiLower m)) = false →
        anyIn (booking_keywords_english ++ booking_keywords_gujarati)
          (pyStrip (asciiLower m)) = false →
        st.booking_info.current_step = some "unit_type" →
        m ≠ "1" → m ≠ "2" → m ≠ "3" →
        (process_incoming_message env (some st) f m mid).result =
          .ok (some unitRepromptReply) ∧
        (process_incoming_message env (some st) f m mid).state.booking_info.current_step =
          some "unit_type") ∧
    (∀ (st : ConvSt) (m : String),
        st.lead_capture_mode = some "booking" →
        st.asked_about_brochure = false →
        anyIn brochure_keywords (pyStrip (asciiLower m)) = false →
        anyIn contact_patterns (pyStrip (asciiLower m)) = false →
        anyIn (booking_keywords_english ++ booking_keywords_gujarati)
          (pyStrip (asciiLower m)) = false →
        st.booking_info.current_step = some "budget" →
        extract_budget_from_text m = none →
        (process_incoming_message env (some st) f m mid).result =
          .ok (some budgetRepromptReply) ∧
        (process_incoming_message env (some st) f m mid).state.booking_info.current_step =
          some "budget") := by
  obtain ⟨hb1, hc1, hk1⟩ := hcln nIn (by simp)
  obtain ⟨hb2, hc2, hk2⟩ := hcln pIn (by simp)
  obtain ⟨hb3, hc3, hk3⟩ := hcln dIn (by simp)
  obtain ⟨hb4, hc4, hk4⟩ := hcln tIn (by simp)
  obtain ⟨hb5, hc5, hk5⟩ := hcln uIn (by simp)
  obtain ⟨hb6, hc6, hk6⟩ := hcln bIn (by simp)
  refine ⟨?_, ?_, ?_, ?_, ?_⟩
  · have F1 := booking_name_step_facts env f nIn mid st0
      hmode hask hb1 hc1 hk1 hstep
    have F2 := booking_confirm_step_facts env f pIn mid _ pVal
      F1.1 F1.2.1 hb2 hc2 hk2 F1.2.2 hpyes hp1 hp
    have F3 := booking_date_step_facts env f dIn mid _
      F2.1 F2.2.1 hb3 hc3 hk3 F2.2.2 hd
    have F4 := booking_time_step_facts env f tIn mid _
      F3.1 F3.2.1 hb4 hc4 hk4 F3.2.2
    have F5 := booking_unit_step_facts env f uIn mid _
      F4.1 F4.2.1 hb5 hc5 hk5 F4.2.2 hu
    have F6 := booking_budget_step_facts env f bIn mid _ bVal
      F5.1 F5.2.1 hb6 hc6 hk6 F5.2.2 hbv
    exact ⟨F6.2.1, F6.2.2, F6.1⟩
  · intro st m hm ha hbm hcm hkm hstp hyes h1 hpn
    rw [route_booking env f m mid st hm ha hbm hcm hkm,
        bookingTurn_confirm_invalid_eq _ _ _ _ _ (by simpa using hstp) hyes h1 hpn]
    simp [appendBot, hstp]
  · intro st m hm ha hbm hcm hkm hstp hdm
    rw [route_booking env f m mid st hm ha hbm hcm hkm,
        bookingTurn_date_invalid_eq _ _ _ _ _ (by simpa using hstp) hdm]
    simp [appendBot, hstp]
  · intro st m hm ha hbm hcm hkm hstp h1 h2 h3
    rw [route_booking env f m mid st hm ha hbm hcm hkm,
        bookingTurn_unit_invalid_eq _ _ _ _ _ (by simpa using hstp) h1 h2 h3]
    simp [appendBot, hstp]
  · intro st m hm ha hbm hcm hkm hstp hbn
    rw [route_booking env f m mid st hm ha hbm hcm hkm,
        bookingTurn_budget_invalid_eq _ _ _ _ _ (by simpa using hstp) hbn]
    simp [appendBot, hstp]

/-- Witness for C3 at the concrete six-input traversal
"Krishna", "9876543210", "05/11/2025", "2", "1", "1.5 cr". -/
theorem C3_booking_six_valid_inputs_witness :
    (bookingChain demoEnv "919876543210" "mid" bookingStartState
        ["Krishna", "9876543210", "05/11/2025", "2", "1", "1.5 cr"]).lead_capture_mode =
      none :=
  (C3_booking_six_valid_inputs demoEnv "919876543210" "mid" bookingStartState
      "Krishna" "9876543210" "05/11/2025" "2" "1" "1.5 cr" "9876543210" "1.5 Cr"
      rfl rfl rfl (by decide) (by decide) (by decide) (by decide) (by decide)
      (Or.inl rfl) (by decide)).1.1

end WhatsappBot
